import Mathlib

/-!
# SDL entry shim (`examples/common/entry/entry_sdl.cpp`)

A shallow embedding of the SDL back end of the bgfx example entry layer:
the keyboard translation helpers, the resize policy of `Context::setWindowSize`,
the window lookup `Context::findHandle`, the user-command branches of
`Context::run`, and the public `createWindow` / `destroyWindow` calls.

Conventions.
* `uint8_t`, `uint16_t` and `uint32_t` values are natural numbers; a store into a
  narrower type is written with an explicit `%`.
* `float` is IEEE-754 binary32 with round-to-nearest-even, the arithmetic of every
  platform the file is compiled for; see `F32`.
* Constants that live in headers outside `entry_sdl.cpp` (`SDL_SCANCODE_*`, `KMOD_*`,
  `Key::*`, `Modifier::*`, `ENTRY_DEFAULT_WIDTH`, ...) are parameters of the
  definitions. The values of SDL 2 and of `entry.h` are collected in `Sdl2` for
  concrete evaluations.
-/

namespace entry

/-! ## `translateKeyModifiers` -/

/-- The eight `KMOD_*` masks of `SDL_keycode.h` that `translateKeyModifiers` tests. -/
structure Keymod where
  KMOD_LALT : Nat
  KMOD_RALT : Nat
  KMOD_LCTRL : Nat
  KMOD_RCTRL : Nat
  KMOD_LSHIFT : Nat
  KMOD_RSHIFT : Nat
  KMOD_LGUI : Nat
  KMOD_RGUI : Nat
deriving DecidableEq, Repr

/-- The eight non-zero values of `Modifier::Enum` (declared in `entry.h`). -/
structure Modifier where
  LeftAlt : Nat
  RightAlt : Nat
  LeftCtrl : Nat
  RightCtrl : Nat
  LeftShift : Nat
  RightShift : Nat
  LeftMeta : Nat
  RightMeta : Nat
deriving DecidableEq, Repr

/-- The values of the enumeration as a list, in declaration order. -/
def Modifier.values (M : Modifier) : List Nat :=
  [M.LeftAlt, M.RightAlt, M.LeftCtrl, M.RightCtrl,
   M.LeftShift, M.RightShift, M.LeftMeta, M.RightMeta]

/-- The enumeration is a set of flags for a `uint8_t`: every value is non-zero, fits
in a byte, and no two values share a bit. -/
def Modifier.IsFlagSet (M : Modifier) : Prop :=
  (∀ v ∈ M.values, 0 < v ∧ v < 256) ∧ M.values.Pairwise (fun a b => a &&& b = 0)

instance (M : Modifier) : Decidable M.IsFlagSet := by
  unfold Modifier.IsFlagSet; infer_instance

/-- Source: `static uint8_t translateKeyModifiers(uint16_t _sdl)`: each statement is
`modifiers |= _sdl & KMOD_x ? Modifier::X : 0;` on a `uint8_t` accumulator. -/
def translateKeyModifiers (K : Keymod) (M : Modifier) (_sdl : Nat) : Nat :=
  let modifiers := 0
  let modifiers := (modifiers ||| (if _sdl &&& K.KMOD_LALT ≠ 0 then M.LeftAlt else 0)) % 256
  let modifiers := (modifiers ||| (if _sdl &&& K.KMOD_RALT ≠ 0 then M.RightAlt else 0)) % 256
  let modifiers := (modifiers ||| (if _sdl &&& K.KMOD_LCTRL ≠ 0 then M.LeftCtrl else 0)) % 256
  let modifiers := (modifiers ||| (if _sdl &&& K.KMOD_RCTRL ≠ 0 then M.RightCtrl else 0)) % 256
  let modifiers := (modifiers ||| (if _sdl &&& K.KMOD_LSHIFT ≠ 0 then M.LeftShift else 0)) % 256
  let modifiers := (modifiers ||| (if _sdl &&& K.KMOD_RSHIFT ≠ 0 then M.RightShift else 0)) % 256
  let modifiers := (modifiers ||| (if _sdl &&& K.KMOD_LGUI ≠ 0 then M.LeftMeta else 0)) % 256
  let modifiers := (modifiers ||| (if _sdl &&& K.KMOD_RGUI ≠ 0 then M.RightMeta else 0)) % 256
  modifiers

/-! ## The key translation table -/

/-- The `SDL_SCANCODE_*` constants that the `Context` constructor passes to
`initTranslateKey`. Their numeric values come from `SDL_scancode.h` and enter the model
through a numbering `SDL_Scancode → Nat`; a native scancode itself is a natural number. -/
inductive SDL_Scancode where
  | SDL_SCANCODE_ESCAPE | SDL_SCANCODE_RETURN | SDL_SCANCODE_TAB | SDL_SCANCODE_BACKSPACE
  | SDL_SCANCODE_SPACE | SDL_SCANCODE_UP | SDL_SCANCODE_DOWN | SDL_SCANCODE_LEFT
  | SDL_SCANCODE_RIGHT | SDL_SCANCODE_PAGEUP | SDL_SCANCODE_PAGEDOWN | SDL_SCANCODE_HOME
  | SDL_SCANCODE_END | SDL_SCANCODE_PRINTSCREEN | SDL_SCANCODE_KP_PLUS | SDL_SCANCODE_KP_MINUS
  | SDL_SCANCODE_F1 | SDL_SCANCODE_F2 | SDL_SCANCODE_F3 | SDL_SCANCODE_F4 | SDL_SCANCODE_F5
  | SDL_SCANCODE_F6 | SDL_SCANCODE_F7 | SDL_SCANCODE_F8 | SDL_SCANCODE_F9 | SDL_SCANCODE_F10
  | SDL_SCANCODE_F11 | SDL_SCANCODE_F12 | SDL_SCANCODE_KP_0 | SDL_SCANCODE_KP_1
  | SDL_SCANCODE_KP_2 | SDL_SCANCODE_KP_3 | SDL_SCANCODE_KP_4 | SDL_SCANCODE_KP_5
  | SDL_SCANCODE_KP_6 | SDL_SCANCODE_KP_7 | SDL_SCANCODE_KP_8 | SDL_SCANCODE_KP_9
  | SDL_SCANCODE_0 | SDL_SCANCODE_1 | SDL_SCANCODE_2 | SDL_SCANCODE_3 | SDL_SCANCODE_4
  | SDL_SCANCODE_5 | SDL_SCANCODE_6 | SDL_SCANCODE_7 | SDL_SCANCODE_8 | SDL_SCANCODE_9
  | SDL_SCANCODE_A | SDL_SCANCODE_B | SDL_SCANCODE_C | SDL_SCANCODE_D | SDL_SCANCODE_E
  | SDL_SCANCODE_F | SDL_SCANCODE_G | SDL_SCANCODE_H | SDL_SCANCODE_I | SDL_SCANCODE_J
  | SDL_SCANCODE_K | SDL_SCANCODE_L | SDL_SCANCODE_M | SDL_SCANCODE_N | SDL_SCANCODE_O
  | SDL_SCANCODE_P | SDL_SCANCODE_Q | SDL_SCANCODE_R | SDL_SCANCODE_S | SDL_SCANCODE_T
  | SDL_SCANCODE_U | SDL_SCANCODE_V | SDL_SCANCODE_W | SDL_SCANCODE_X | SDL_SCANCODE_Y
  | SDL_SCANCODE_Z
deriving DecidableEq, Repr

/-- The enumerators of `Key::Enum` (declared in `entry.h`) that the constructor uses.
Their numeric values enter the model through a numbering `Key → Nat`. -/
inductive Key where
  | Esc | Return | Tab | Backspace | Space | Up | Down | Left | Right | PageUp | PageDown
  | Home | End | Print | Plus | Minus | F1 | F2 | F3 | F4 | F5 | F6 | F7 | F8 | F9 | F10 | F11
  | F12 | NumPad0 | NumPad1 | NumPad2 | NumPad3 | NumPad4 | NumPad5 | NumPad6 | NumPad7
  | NumPad8 | NumPad9 | Key0 | Key1 | Key2 | Key3 | Key4 | Key5 | Key6 | Key7 | Key8 | Key9
  | KeyA | KeyB | KeyC | KeyD | KeyE | KeyF | KeyG | KeyH | KeyI | KeyJ | KeyK | KeyL | KeyM
  | KeyN | KeyO | KeyP | KeyQ | KeyR | KeyS | KeyT | KeyU | KeyV | KeyW | KeyX | KeyY | KeyZ
deriving DecidableEq, Repr

/-- The table after `memset(s_translateKey, 0, sizeof(s_translateKey))` on `uint8_t s_translateKey[256]`. -/
def s_translateKey_zero : List Nat := List.replicate 256 0

/-- Source: `static void initTranslateKey(uint16_t _sdl, Key::Enum _key)`:
`s_translateKey[_sdl&0xff] = (uint8_t)_key;`. The argument is first converted to
`uint16_t`. `BX_CHECK` only reports in debug builds and does not change the store. -/
def initTranslateKey (s_translateKey : List Nat) (_sdl : Nat) (_key : Nat) : List Nat :=
  s_translateKey.set ((_sdl % 65536) &&& 0xff) (_key % 256)

/-- Source: `static Key::Enum translateKey(SDL_Scancode _sdl)`:
`return (Key::Enum)s_translateKey[_sdl&0xff];`, as the numeric value of the key. -/
def translateKey (s_translateKey : List Nat) (_sdl : Nat) : Nat :=
  s_translateKey.getD (_sdl &&& 0xff) 0

/-- The calls `initTranslateKey(SDL_SCANCODE_x, Key::y)` of the `Context` constructor, in
source order. -/
def Context.initTranslateKeyCalls : List (SDL_Scancode × Key) :=
  [(SDL_Scancode.SDL_SCANCODE_ESCAPE, Key.Esc), (SDL_Scancode.SDL_SCANCODE_RETURN, Key.Return),
   (SDL_Scancode.SDL_SCANCODE_TAB, Key.Tab),
   (SDL_Scancode.SDL_SCANCODE_BACKSPACE, Key.Backspace),
   (SDL_Scancode.SDL_SCANCODE_SPACE, Key.Space), (SDL_Scancode.SDL_SCANCODE_UP, Key.Up),
   (SDL_Scancode.SDL_SCANCODE_DOWN, Key.Down), (SDL_Scancode.SDL_SCANCODE_LEFT, Key.Left),
   (SDL_Scancode.SDL_SCANCODE_RIGHT, Key.Right), (SDL_Scancode.SDL_SCANCODE_PAGEUP, Key.PageUp),
   (SDL_Scancode.SDL_SCANCODE_PAGEDOWN, Key.PageDown),
   (SDL_Scancode.SDL_SCANCODE_HOME, Key.Home), (SDL_Scancode.SDL_SCANCODE_END, Key.End),
   (SDL_Scancode.SDL_SCANCODE_PRINTSCREEN, Key.Print),
   (SDL_Scancode.SDL_SCANCODE_KP_PLUS, Key.Plus),
   (SDL_Scancode.SDL_SCANCODE_KP_MINUS, Key.Minus), (SDL_Scancode.SDL_SCANCODE_F1, Key.F1),
   (SDL_Scancode.SDL_SCANCODE_F2, Key.F2), (SDL_Scancode.SDL_SCANCODE_F3, Key.F3),
   (SDL_Scancode.SDL_SCANCODE_F4, Key.F4), (SDL_Scancode.SDL_SCANCODE_F5, Key.F5),
   (SDL_Scancode.SDL_SCANCODE_F6, Key.F6), (SDL_Scancode.SDL_SCANCODE_F7, Key.F7),
   (SDL_Scancode.SDL_SCANCODE_F8, Key.F8), (SDL_Scancode.SDL_SCANCODE_F9, Key.F9),
   (SDL_Scancode.SDL_SCANCODE_F10, Key.F10), (SDL_Scancode.SDL_SCANCODE_F11, Key.F11),
   (SDL_Scancode.SDL_SCANCODE_F12, Key.F12), (SDL_Scancode.SDL_SCANCODE_KP_0, Key.NumPad0),
   (SDL_Scancode.SDL_SCANCODE_KP_1, Key.NumPad1), (SDL_Scancode.SDL_SCANCODE_KP_2, Key.NumPad2),
   (SDL_Scancode.SDL_SCANCODE_KP_3, Key.NumPad3), (SDL_Scancode.SDL_SCANCODE_KP_4, Key.NumPad4),
   (SDL_Scancode.SDL_SCANCODE_KP_5, Key.NumPad5), (SDL_Scancode.SDL_SCANCODE_KP_6, Key.NumPad6),
   (SDL_Scancode.SDL_SCANCODE_KP_7, Key.NumPad7), (SDL_Scancode.SDL_SCANCODE_KP_8, Key.NumPad8),
   (SDL_Scancode.SDL_SCANCODE_KP_9, Key.NumPad9), (SDL_Scancode.SDL_SCANCODE_0, Key.Key0),
   (SDL_Scancode.SDL_SCANCODE_1, Key.Key1), (SDL_Scancode.SDL_SCANCODE_2, Key.Key2),
   (SDL_Scancode.SDL_SCANCODE_3, Key.Key3), (SDL_Scancode.SDL_SCANCODE_4, Key.Key4),
   (SDL_Scancode.SDL_SCANCODE_5, Key.Key5), (SDL_Scancode.SDL_SCANCODE_6, Key.Key6),
   (SDL_Scancode.SDL_SCANCODE_7, Key.Key7), (SDL_Scancode.SDL_SCANCODE_8, Key.Key8),
   (SDL_Scancode.SDL_SCANCODE_9, Key.Key9), (SDL_Scancode.SDL_SCANCODE_A, Key.KeyA),
   (SDL_Scancode.SDL_SCANCODE_B, Key.KeyB), (SDL_Scancode.SDL_SCANCODE_C, Key.KeyC),
   (SDL_Scancode.SDL_SCANCODE_D, Key.KeyD), (SDL_Scancode.SDL_SCANCODE_E, Key.KeyE),
   (SDL_Scancode.SDL_SCANCODE_F, Key.KeyF), (SDL_Scancode.SDL_SCANCODE_G, Key.KeyG),
   (SDL_Scancode.SDL_SCANCODE_H, Key.KeyH), (SDL_Scancode.SDL_SCANCODE_I, Key.KeyI),
   (SDL_Scancode.SDL_SCANCODE_J, Key.KeyJ), (SDL_Scancode.SDL_SCANCODE_K, Key.KeyK),
   (SDL_Scancode.SDL_SCANCODE_L, Key.KeyL), (SDL_Scancode.SDL_SCANCODE_M, Key.KeyM),
   (SDL_Scancode.SDL_SCANCODE_N, Key.KeyN), (SDL_Scancode.SDL_SCANCODE_O, Key.KeyO),
   (SDL_Scancode.SDL_SCANCODE_P, Key.KeyP), (SDL_Scancode.SDL_SCANCODE_Q, Key.KeyQ),
   (SDL_Scancode.SDL_SCANCODE_R, Key.KeyR), (SDL_Scancode.SDL_SCANCODE_S, Key.KeyS),
   (SDL_Scancode.SDL_SCANCODE_T, Key.KeyT), (SDL_Scancode.SDL_SCANCODE_U, Key.KeyU),
   (SDL_Scancode.SDL_SCANCODE_V, Key.KeyV), (SDL_Scancode.SDL_SCANCODE_W, Key.KeyW),
   (SDL_Scancode.SDL_SCANCODE_X, Key.KeyX), (SDL_Scancode.SDL_SCANCODE_Y, Key.KeyY),
   (SDL_Scancode.SDL_SCANCODE_Z, Key.KeyZ)]

/-- The table as the `Context` constructor leaves it: cleared, then written by the
calls of `Context.initTranslateKeyCalls` from first to last. -/
def Context.s_translateKey (code : SDL_Scancode → Nat) (key : Key → Nat) : List Nat :=
  Context.initTranslateKeyCalls.foldl
    (fun t p => initTranslateKey t (code p.1) (key p.2)) s_translateKey_zero

/-! ## `float` arithmetic

The resize policy computes in `float`. A finite non-negative binary32 value is a
dyadic rational `num / 2 ^ sh` whose numerator has at most 24 significant bits; every
operation rounds its exact result to the nearest such value, ties to the even
significand. All values that occur (between `2⁻²⁴` and `2³³`) are far inside the
normal exponent range, so neither overflow nor gradual underflow has to be modelled. -/

/-- The position of the leading bit of `n`, found by halving at most `fuel` times. -/
def floorLog2Aux : Nat → Nat → Nat
  | 0, _ => 0
  | fuel + 1, n => if n < 2 then 0 else floorLog2Aux fuel (n / 2) + 1

/-- The position of the leading bit of a positive `n`: `2 ^ floorLog2 n ≤ n < 2 ^ (floorLog2 n + 1)`. -/
def floorLog2 (n : Nat) : Nat := floorLog2Aux n n

/-- Round a non-negative integer to 24 significant bits, ties to even. -/
def roundSig24 (n : Nat) : Nat :=
  if n < 2 ^ 24 then n
  else
    let s := floorLog2 n - 23
    let q := n / 2 ^ s
    let r := n % 2 ^ s
    let half := 2 ^ (s - 1)
    if r < half then q * 2 ^ s
    else if half < r then (q + 1) * 2 ^ s
    else if q % 2 = 0 then q * 2 ^ s
    else (q + 1) * 2 ^ s

/-- A non-negative `float`: the value `num / 2 ^ sh`. -/
structure F32 where
  num : Nat
  sh : Nat
deriving DecidableEq, Repr

/-- Conversion of an unsigned integer to `float`, as in `float(m_width)` or in a literal
such as `16.0f`. -/
def F32.ofNat (n : Nat) : F32 := ⟨roundSig24 n, 0⟩

/-- The `float` product: the exact product, rounded. -/
def F32.mul (a b : F32) : F32 := ⟨roundSig24 (a.num * b.num), a.sh + b.sh⟩

/-- The `float` quotient of `a` by a non-zero `b`. The exact quotient `n / d` is
expanded to more than 27 bits with a sticky bit for the remainder, which rounds like
the exact quotient. -/
def F32.div (a b : F32) : F32 :=
  let n := a.num * 2 ^ b.sh
  let d := b.num * 2 ^ a.sh
  let k := 27 + floorLog2 d
  let q := n * 2 ^ k / d
  let sticky := if n * 2 ^ k % d = 0 then 0 else 1
  ⟨roundSig24 (2 * q + sticky), k + 1⟩

/-- Conversion `uint32_t(x)` of a `float`: truncation toward zero. For a value of
`2 ^ 32` or more the conversion is undefined in C++; the model reduces it modulo
`2 ^ 32`, and no statement below relies on that case. -/
def F32.toU32 (a : F32) : Nat := (a.num / 2 ^ a.sh) % 2 ^ 32

/-! ## Handles and the handle allocator -/

/-- The constant `UINT16_MAX`, the `idx` of the invalid handle. -/
def UINT16_MAX : Nat := 65535

/-- The handle type `struct WindowHandle { uint16_t idx; }` (declared in `entry.h`). -/
structure WindowHandle where
  idx : Nat
deriving DecidableEq, Repr

/-- Modelled from the spec: `bx::HandleAllocT<MaxHandlesT>` of `bx/handlealloc.h`, which
is not among the sources. The spec describes it as a fixed-capacity slot allocator
producing small integer handles, with `alloc() -> handle | invalid` failing by the
invalid sentinel when the capacity is exhausted, `free(handle)`, and a list of the
allocated handles that `findHandle` scans. The model keeps the handles `0 .. Max-1` in
one list `m_handles`, whose first `m_numHandles` entries are the allocated ones. -/
structure HandleAlloc where
  m_handles : List Nat
  m_numHandles : Nat
deriving DecidableEq, Repr

/-- Modelled from the spec: the constructor of the allocator, with nothing allocated. -/
def HandleAlloc.init (MaxHandlesT : Nat) : HandleAlloc :=
  ⟨List.range MaxHandlesT, 0⟩

/-- Modelled from the spec: `getNumHandles()`. -/
def HandleAlloc.getNumHandles (a : HandleAlloc) : Nat := a.m_numHandles

/-- Modelled from the spec: `getHandleAt(_at)`, the handle at a position of the list of
allocated handles. -/
def HandleAlloc.getHandleAt (a : HandleAlloc) (_at : Nat) : Nat := a.m_handles.getD _at 0

/-- Modelled from the spec: `alloc()`. With a free slot it returns the next handle of the
list and counts it as allocated; when the capacity is exhausted it returns the invalid
sentinel and changes nothing. -/
def HandleAlloc.alloc (MaxHandlesT : Nat) (a : HandleAlloc) : Nat × HandleAlloc :=
  if a.m_numHandles < MaxHandlesT then
    let index := a.m_numHandles
    let handle := a.m_handles.getD index 0
    (handle, { a with m_numHandles := a.m_numHandles + 1 })
  else
    (UINT16_MAX, a)

/-- Modelled from the spec: `free(_handle)`. The handle changes place with the last
allocated one and the count drops by one, so the freed handle is the next one that
`alloc` hands out. The count is a `uint16_t`. -/
def HandleAlloc.free (a : HandleAlloc) (_handle : Nat) : HandleAlloc :=
  let index := a.m_handles.indexOf _handle
  let m_numHandles := (a.m_numHandles + 65535) % 65536
  let temp := a.m_handles.getD m_numHandles 0
  let m_handles := a.m_handles.set m_numHandles _handle
  let m_handles := m_handles.set index temp
  ⟨m_handles, m_numHandles⟩

/-- The handles that are currently allocated. -/
def HandleAlloc.allocated (a : HandleAlloc) : List Nat := a.m_handles.take a.m_numHandles

/-- The state of an allocator of capacity `MaxHandlesT` that is used as intended: the
list is a rearrangement of the handles `0 .. MaxHandlesT-1` and the count is within the
capacity. -/
def HandleAlloc.WellFormed (MaxHandlesT : Nat) (a : HandleAlloc) : Prop :=
  a.m_handles.Perm (List.range MaxHandlesT) ∧ a.m_numHandles ≤ MaxHandlesT

instance (MaxHandlesT : Nat) (a : HandleAlloc) : Decidable (a.WellFormed MaxHandlesT) := by
  unfold HandleAlloc.WellFormed; infer_instance

/-! ## The context -/

/-- The configuration constants of `entry_p.h` and `entry.h` that the file uses. -/
structure Config where
  ENTRY_DEFAULT_WIDTH : Nat
  ENTRY_DEFAULT_HEIGHT : Nat
  ENTRY_CONFIG_MAX_WINDOWS : Nat
  ENTRY_WINDOW_FLAG_ASPECT_RATIO : Nat
  ENTRY_WINDOW_FLAG_FRAME : Nat
deriving DecidableEq, Repr

/-- The C++ `struct Msg`, the heap record that travels with a command. -/
structure Msg where
  m_x : Int
  m_y : Int
  m_width : Nat
  m_height : Nat
  m_flags : Nat
  m_title : String
deriving DecidableEq, Repr

/-- The constructor `Msg::Msg()`. -/
def Msg.new : Msg := ⟨0, 0, 0, 0, 0, ""⟩

/-- The user events that the command functions push with `SDL_PushEvent`, one
constructor for each `SDL_USER_WINDOW_*` type, with the fields of `SDL_UserEvent` that
the event loop reads for that type: the `uint16_t` or `uint32_t` stored in `data1` and
`data2`, the `Msg` that `data2` points to, `windowID`, `code`. -/
inductive SDL_UserEvent where
  | SDL_USER_WINDOW_CREATE (idx : Nat) (msg : Msg)
  | SDL_USER_WINDOW_DESTROY (idx : Nat)
  | SDL_USER_WINDOW_SET_TITLE (idx : Nat) (msg : Msg)
  | SDL_USER_WINDOW_SET_POS (idx : Nat) (msg : Msg)
  | SDL_USER_WINDOW_SET_SIZE (windowID : Nat) (width : Nat) (height : Nat)
  | SDL_USER_WINDOW_TOGGLE_FRAME (idx : Nat)
  | SDL_USER_WINDOW_MOUSE_LOCK (code : Nat)
deriving DecidableEq, Repr

/-- Modelled from the spec: the events of `EventQueue` (`entry_p.h`, not among the
sources) that the modelled code posts: `Window{window, nativeHandle?}` and
`Size{window, width, height}`. A native window handle is a pointer, `0` for `NULL`. -/
inductive Event where
  | Window (handle : WindowHandle) (nwh : Nat)
  | Size (handle : WindowHandle) (width : Nat) (height : Nat)
deriving DecidableEq, Repr

/-- A call into SDL that changes a native window. An `SDL_Window*` is a pointer, `0` for
`NULL`. -/
inductive SdlCall where
  | SDL_CreateWindow (title : String) (x y : Int) (w h : Nat)
  | SDL_DestroyWindow (window : Nat)
  | SDL_SetWindowTitle (window : Nat) (title : String)
  | SDL_SetWindowPosition (window : Nat) (x y : Int)
  | SDL_SetWindowSize (window : Nat) (w h : Nat)
  | SDL_SetWindowBordered (window : Nat) (bordered : Bool)
  | SDL_SetRelativeMouseMode (enabled : Bool)
deriving DecidableEq, Repr

/-- What SDL answers to the queries of the event loop: the window that
`SDL_CreateWindow` returns (`0` when it fails), the native handle that
`SDL_GetWindowWMInfo` reports for a window (`none` when it returns `SDL_FALSE`), and the
window that `SDL_GetWindowFromID` finds for an id (`0` when there is none). -/
structure Sdl where
  SDL_CreateWindow : String → Int → Int → Nat → Nat → Nat
  SDL_GetWindowWMInfo : Nat → Option Nat
  SDL_GetWindowFromID : Nat → Nat

/-- The C++ `struct Context`: the members that the modelled code reads or writes. `m_eventQueue`
is the sequence of events posted so far (oldest first) and `sdlCalls`, which is not a
member of the C++ struct, records the calls made into SDL (oldest first). -/
structure Context where
  m_eventQueue : List Event
  m_windowAlloc : HandleAlloc
  m_window : List Nat
  m_flags : List Nat
  m_width : Nat
  m_height : Nat
  m_aspectRatio : F32
  m_mouseLock : Bool
  sdlCalls : List SdlCall
deriving DecidableEq, Repr

/-- Modelled from the spec: `EventQueue::postSizeEvent` appends a `Size` event. -/
def postSizeEvent (q : List Event) (_handle : WindowHandle) (_width _height : Nat) :
    List Event :=
  q ++ [Event.Size _handle _width _height]

/-- Modelled from the spec: `EventQueue::postWindowEvent` appends a `Window` event; the
native handle defaults to `NULL`, which signals destruction. -/
def postWindowEvent (q : List Event) (_handle : WindowHandle) (_nwh : Nat) : List Event :=
  q ++ [Event.Window _handle _nwh]

/-- The helper `bx::uint32_max`. -/
def uint32_max (_a _b : Nat) : Nat := if _a > _b then _a else _b

/-- The constructor `Context::Context()` together with the zero-initialisation of the static `s_ctx`:
default size, aspect ratio `16.0f/9.0f`, empty window table. -/
def Context.new (cfg : Config) : Context where
  m_eventQueue := []
  m_windowAlloc := HandleAlloc.init cfg.ENTRY_CONFIG_MAX_WINDOWS
  m_window := List.replicate cfg.ENTRY_CONFIG_MAX_WINDOWS 0
  m_flags := List.replicate cfg.ENTRY_CONFIG_MAX_WINDOWS 0
  m_width := cfg.ENTRY_DEFAULT_WIDTH
  m_height := cfg.ENTRY_DEFAULT_HEIGHT
  m_aspectRatio := F32.div (F32.ofNat 16) (F32.ofNat 9)
  m_mouseLock := false
  sdlCalls := []

/-- The read `m_window[idx]`. Outside the array the read is undefined in C++; the model
yields `NULL`. -/
def Context.windowAt (ctx : Context) (idx : Nat) : Nat := ctx.m_window.getD idx 0

/-- Source: `void Context::setWindowSize(WindowHandle _handle, uint32_t _width, uint32_t _height,
bool _force = false)`. -/
def Context.setWindowSize (cfg : Config) (ctx : Context) (_handle : WindowHandle)
    (_width _height : Nat) (_force : Bool) : Context :=
  if _width ≠ ctx.m_width ∨ _height ≠ ctx.m_height ∨ _force = true then
    let m_width := _width
    let m_height := _height
    let size : Nat × Nat :=
      if m_width < m_height then
        let aspectRatio := F32.div (F32.ofNat 1) ctx.m_aspectRatio
        let m_width := uint32_max (cfg.ENTRY_DEFAULT_WIDTH / 4) m_width
        let m_height := F32.toU32 (F32.mul (F32.ofNat m_width) aspectRatio)
        (m_width, m_height)
      else
        let aspectRatio := ctx.m_aspectRatio
        let m_height := uint32_max (cfg.ENTRY_DEFAULT_HEIGHT / 4) m_height
        let m_width := F32.toU32 (F32.mul (F32.ofNat m_height) aspectRatio)
        (m_width, m_height)
    { ctx with
      m_width := size.1
      m_height := size.2
      sdlCalls := ctx.sdlCalls ++
        [SdlCall.SDL_SetWindowSize (ctx.windowAt _handle.idx) size.1 size.2]
      m_eventQueue := postSizeEvent ctx.m_eventQueue _handle size.1 size.2 }
  else ctx

/-- The loop of `WindowHandle Context::findHandle(SDL_Window* _window)` from position
`ii` on, over the `num - ii` remaining positions. -/
def Context.findHandleFrom (ctx : Context) (_window : Nat) : Nat → Nat → WindowHandle
  | 0, _ => ⟨UINT16_MAX⟩
  | n + 1, ii =>
    let idx := ctx.m_windowAlloc.getHandleAt ii
    if _window = ctx.windowAt idx then ⟨idx⟩
    else Context.findHandleFrom ctx _window n (ii + 1)

/-- Source: `WindowHandle Context::findHandle(SDL_Window* _window)`: scan the allocated handles
in the order of the allocator and return the first whose slot holds `_window`, else the
invalid handle. -/
def Context.findHandleWindow (ctx : Context) (_window : Nat) : WindowHandle :=
  Context.findHandleFrom ctx _window ctx.m_windowAlloc.getNumHandles 0

/-- Source: `WindowHandle Context::findHandle(uint32_t _windowId)`. -/
def Context.findHandle (sdl : Sdl) (ctx : Context) (_windowId : Nat) : WindowHandle :=
  let window := sdl.SDL_GetWindowFromID _windowId
  Context.findHandleWindow ctx window

/-- The `default:` branch of the event switch in `Context::run`: one user event is
handled. A store `m_window[idx] = ...` or `m_flags[idx] = ...` outside the array is
undefined in C++; the model drops it. -/
def Context.runUserEvent (cfg : Config) (sdl : Sdl) (ctx : Context) :
    SDL_UserEvent → Context
  | .SDL_USER_WINDOW_CREATE idx msg =>
    let handle : WindowHandle := ⟨idx % 65536⟩
    let window := sdl.SDL_CreateWindow msg.m_title msg.m_x msg.m_y msg.m_width msg.m_height
    let ctx := { ctx with
      m_window := ctx.m_window.set handle.idx window
      sdlCalls := ctx.sdlCalls ++
        [SdlCall.SDL_CreateWindow msg.m_title msg.m_x msg.m_y msg.m_width msg.m_height] }
    let ctx := { ctx with m_flags := ctx.m_flags.set handle.idx msg.m_flags }
    match sdl.SDL_GetWindowWMInfo (ctx.windowAt handle.idx) with
    | some nwh =>
      let ctx := { ctx with m_eventQueue := postWindowEvent ctx.m_eventQueue handle nwh }
      { ctx with
        m_eventQueue := postSizeEvent ctx.m_eventQueue handle msg.m_width msg.m_height }
    | none => ctx
  | .SDL_USER_WINDOW_DESTROY idx =>
    let handle : WindowHandle := ⟨idx % 65536⟩
    let ctx := { ctx with m_eventQueue := postWindowEvent ctx.m_eventQueue handle 0 }
    let ctx := { ctx with
      sdlCalls := ctx.sdlCalls ++ [SdlCall.SDL_DestroyWindow (ctx.windowAt handle.idx)] }
    { ctx with m_window := ctx.m_window.set handle.idx 0 }
  | .SDL_USER_WINDOW_SET_TITLE idx msg =>
    let handle : WindowHandle := ⟨idx % 65536⟩
    { ctx with
      sdlCalls := ctx.sdlCalls ++
        [SdlCall.SDL_SetWindowTitle (ctx.windowAt handle.idx) msg.m_title] }
  | .SDL_USER_WINDOW_SET_POS idx msg =>
    let handle : WindowHandle := ⟨idx % 65536⟩
    { ctx with
      sdlCalls := ctx.sdlCalls ++
        [SdlCall.SDL_SetWindowPosition (ctx.windowAt handle.idx) msg.m_x msg.m_y] }
  | .SDL_USER_WINDOW_SET_SIZE windowID width height =>
    let handle := Context.findHandle sdl ctx windowID
    let width := width % 2 ^ 32
    let height := height % 2 ^ 32
    Context.setWindowSize cfg ctx handle width height false
  | .SDL_USER_WINDOW_TOGGLE_FRAME idx =>
    let handle : WindowHandle := ⟨idx % 65536⟩
    let ctx := { ctx with
      m_flags := ctx.m_flags.set handle.idx
        (ctx.m_flags.getD handle.idx 0 ^^^ cfg.ENTRY_WINDOW_FLAG_FRAME) }
    { ctx with
      sdlCalls := ctx.sdlCalls ++
        [SdlCall.SDL_SetWindowBordered (ctx.windowAt handle.idx)
          (ctx.m_flags.getD handle.idx 0 &&& cfg.ENTRY_WINDOW_FLAG_FRAME ≠ 0)] }
  | .SDL_USER_WINDOW_MOUSE_LOCK code =>
    { ctx with sdlCalls := ctx.sdlCalls ++ [SdlCall.SDL_SetRelativeMouseMode (code ≠ 0)] }

/-! ## The command functions -/

/-- The process state that the command functions and the event loop share: the static
`s_ctx` and the queue of events pushed with `SDL_PushEvent` and not yet polled (oldest
first). -/
structure World where
  s_ctx : Context
  pushed : List SDL_UserEvent
deriving DecidableEq, Repr

/-- The call `SDL_PushEvent`. -/
def World.SDL_PushEvent (w : World) (uev : SDL_UserEvent) : World :=
  { w with pushed := w.pushed ++ [uev] }

/-- Source: `WindowHandle createWindow(int32_t _x, int32_t _y, uint32_t _width, uint32_t _height,
uint32_t _flags, const char* _title)`. -/
def createWindow (cfg : Config) (w : World) (_x _y : Int) (_width _height _flags : Nat)
    (_title : String) : WindowHandle × World :=
  let r := w.s_ctx.m_windowAlloc.alloc cfg.ENTRY_CONFIG_MAX_WINDOWS
  let handle : WindowHandle := ⟨r.1⟩
  let w := { w with s_ctx := { w.s_ctx with m_windowAlloc := r.2 } }
  if UINT16_MAX ≠ handle.idx then
    let msg := Msg.new
    let msg := { msg with m_x := _x }
    let msg := { msg with m_y := _y }
    let msg := { msg with m_width := _width }
    let msg := { msg with m_height := _height }
    let msg := { msg with m_title := _title }
    let msg := { msg with m_flags := _flags }
    (handle, w.SDL_PushEvent (.SDL_USER_WINDOW_CREATE handle.idx msg))
  else
    (handle, w)

/-- Source: `void destroyWindow(WindowHandle _handle)`. -/
def destroyWindow (w : World) (_handle : WindowHandle) : World :=
  if UINT16_MAX ≠ _handle.idx then
    let w := w.SDL_PushEvent (.SDL_USER_WINDOW_DESTROY _handle.idx)
    { w with s_ctx := { w.s_ctx with m_windowAlloc := w.s_ctx.m_windowAlloc.free _handle.idx } }
  else w

/-- Source: `void setWindowSize(WindowHandle _handle, uint32_t _width, uint32_t _height)`. The
function sets `type`, `data1` and `data2` of the event and nothing else, so the
`windowID` that the event loop reads is whatever the uninitialised `SDL_Event` holds; it
is the parameter `windowID`. -/
def setWindowSize (w : World) (_handle : WindowHandle) (_width _height : Nat)
    (windowID : Nat) : World :=
  w.SDL_PushEvent (.SDL_USER_WINDOW_SET_SIZE windowID _width _height)

/-- One round of `while (SDL_PollEvent(&event))` for a user event: the oldest pushed
event, if there is one, is taken off the queue and handled. -/
def World.pollEvent (cfg : Config) (sdl : Sdl) (w : World) : World :=
  match w.pushed with
  | [] => w
  | uev :: rest => { s_ctx := Context.runUserEvent cfg sdl w.s_ctx uev, pushed := rest }

/-- The state in which `Context::run` enters its event loop, up to the queue of posted
events: handle `0` is allocated and holds the default window `window0`, and the forced
`setWindowSize(defaultWindow, m_width, m_height, true)` has run. -/
def Context.started (cfg : Config) (window0 : Nat) : Context :=
  let ctx := Context.new cfg
  let ctx := { ctx with m_windowAlloc := (ctx.m_windowAlloc.alloc cfg.ENTRY_CONFIG_MAX_WINDOWS).2 }
  let ctx := { ctx with m_window := ctx.m_window.set 0 window0 }
  let ctx := { ctx with
    m_flags := ctx.m_flags.set 0 (0 ||| cfg.ENTRY_WINDOW_FLAG_ASPECT_RATIO |||
      cfg.ENTRY_WINDOW_FLAG_FRAME) }
  Context.setWindowSize cfg ctx ⟨0⟩ ctx.m_width ctx.m_height true
/-! ## Header values of SDL 2 and `entry.h` -/

namespace Sdl2

/-- From `SDL_scancode.h`: the scancodes are the USB keyboard usage ids. -/
def code : SDL_Scancode → Nat
  | .SDL_SCANCODE_ESCAPE => 41
  | .SDL_SCANCODE_RETURN => 40
  | .SDL_SCANCODE_TAB => 43
  | .SDL_SCANCODE_BACKSPACE => 42
  | .SDL_SCANCODE_SPACE => 44
  | .SDL_SCANCODE_UP => 82
  | .SDL_SCANCODE_DOWN => 81
  | .SDL_SCANCODE_LEFT => 80
  | .SDL_SCANCODE_RIGHT => 79
  | .SDL_SCANCODE_PAGEUP => 75
  | .SDL_SCANCODE_PAGEDOWN => 78
  | .SDL_SCANCODE_HOME => 74
  | .SDL_SCANCODE_END => 77
  | .SDL_SCANCODE_PRINTSCREEN => 70
  | .SDL_SCANCODE_KP_PLUS => 87
  | .SDL_SCANCODE_KP_MINUS => 86
  | .SDL_SCANCODE_F1 => 58
  | .SDL_SCANCODE_F2 => 59
  | .SDL_SCANCODE_F3 => 60
  | .SDL_SCANCODE_F4 => 61
  | .SDL_SCANCODE_F5 => 62
  | .SDL_SCANCODE_F6 => 63
  | .SDL_SCANCODE_F7 => 64
  | .SDL_SCANCODE_F8 => 65
  | .SDL_SCANCODE_F9 => 66
  | .SDL_SCANCODE_F10 => 67
  | .SDL_SCANCODE_F11 => 68
  | .SDL_SCANCODE_F12 => 69
  | .SDL_SCANCODE_KP_0 => 98
  | .SDL_SCANCODE_KP_1 => 89
  | .SDL_SCANCODE_KP_2 => 90
  | .SDL_SCANCODE_KP_3 => 91
  | .SDL_SCANCODE_KP_4 => 92
  | .SDL_SCANCODE_KP_5 => 93
  | .SDL_SCANCODE_KP_6 => 94
  | .SDL_SCANCODE_KP_7 => 95
  | .SDL_SCANCODE_KP_8 => 96
  | .SDL_SCANCODE_KP_9 => 97
  | .SDL_SCANCODE_0 => 39
  | .SDL_SCANCODE_1 => 30
  | .SDL_SCANCODE_2 => 31
  | .SDL_SCANCODE_3 => 32
  | .SDL_SCANCODE_4 => 33
  | .SDL_SCANCODE_5 => 34
  | .SDL_SCANCODE_6 => 35
  | .SDL_SCANCODE_7 => 36
  | .SDL_SCANCODE_8 => 37
  | .SDL_SCANCODE_9 => 38
  | .SDL_SCANCODE_A => 4
  | .SDL_SCANCODE_B => 5
  | .SDL_SCANCODE_C => 6
  | .SDL_SCANCODE_D => 7
  | .SDL_SCANCODE_E => 8
  | .SDL_SCANCODE_F => 9
  | .SDL_SCANCODE_G => 10
  | .SDL_SCANCODE_H => 11
  | .SDL_SCANCODE_I => 12
  | .SDL_SCANCODE_J => 13
  | .SDL_SCANCODE_K => 14
  | .SDL_SCANCODE_L => 15
  | .SDL_SCANCODE_M => 16
  | .SDL_SCANCODE_N => 17
  | .SDL_SCANCODE_O => 18
  | .SDL_SCANCODE_P => 19
  | .SDL_SCANCODE_Q => 20
  | .SDL_SCANCODE_R => 21
  | .SDL_SCANCODE_S => 22
  | .SDL_SCANCODE_T => 23
  | .SDL_SCANCODE_U => 24
  | .SDL_SCANCODE_V => 25
  | .SDL_SCANCODE_W => 26
  | .SDL_SCANCODE_X => 27
  | .SDL_SCANCODE_Y => 28
  | .SDL_SCANCODE_Z => 29

/-- The constant `SDL_SCANCODE_AUDIOSTOP` of `SDL_scancode.h`, a scancode above 255 that the
constructor does not map. -/
def SDL_SCANCODE_AUDIOSTOP : Nat := 260

/-- The numbering of `Key::Enum`: `None = 0` followed by the keys in the order in which the constructor
lists them. -/
def key : Key → Nat
  | .Esc => 1
  | .Return => 2
  | .Tab => 3
  | .Backspace => 4
  | .Space => 5
  | .Up => 6
  | .Down => 7
  | .Left => 8
  | .Right => 9
  | .PageUp => 10
  | .PageDown => 11
  | .Home => 12
  | .End => 13
  | .Print => 14
  | .Plus => 15
  | .Minus => 16
  | .F1 => 17
  | .F2 => 18
  | .F3 => 19
  | .F4 => 20
  | .F5 => 21
  | .F6 => 22
  | .F7 => 23
  | .F8 => 24
  | .F9 => 25
  | .F10 => 26
  | .F11 => 27
  | .F12 => 28
  | .NumPad0 => 29
  | .NumPad1 => 30
  | .NumPad2 => 31
  | .NumPad3 => 32
  | .NumPad4 => 33
  | .NumPad5 => 34
  | .NumPad6 => 35
  | .NumPad7 => 36
  | .NumPad8 => 37
  | .NumPad9 => 38
  | .Key0 => 39
  | .Key1 => 40
  | .Key2 => 41
  | .Key3 => 42
  | .Key4 => 43
  | .Key5 => 44
  | .Key6 => 45
  | .Key7 => 46
  | .Key8 => 47
  | .Key9 => 48
  | .KeyA => 49
  | .KeyB => 50
  | .KeyC => 51
  | .KeyD => 52
  | .KeyE => 53
  | .KeyF => 54
  | .KeyG => 55
  | .KeyH => 56
  | .KeyI => 57
  | .KeyJ => 58
  | .KeyK => 59
  | .KeyL => 60
  | .KeyM => 61
  | .KeyN => 62
  | .KeyO => 63
  | .KeyP => 64
  | .KeyQ => 65
  | .KeyR => 66
  | .KeyS => 67
  | .KeyT => 68
  | .KeyU => 69
  | .KeyV => 70
  | .KeyW => 71
  | .KeyX => 72
  | .KeyY => 73
  | .KeyZ => 74

/-- From `SDL_keycode.h`, `SDL_Keymod`. -/
def keymod : Keymod where
  KMOD_LSHIFT := 0x0001
  KMOD_RSHIFT := 0x0002
  KMOD_LCTRL := 0x0040
  KMOD_RCTRL := 0x0080
  KMOD_LALT := 0x0100
  KMOD_RALT := 0x0200
  KMOD_LGUI := 0x0400
  KMOD_RGUI := 0x0800

/-- The mask `KMOD_NUM | KMOD_CAPS | KMOD_MODE` of `SDL_keycode.h`. -/
def KMOD_NUM_CAPS_MODE : Nat := 0x1000 ||| 0x2000 ||| 0x4000

/-- From `entry.h`, `Modifier::Enum`. -/
def modifier : Modifier where
  LeftAlt := 0x01
  RightAlt := 0x02
  LeftCtrl := 0x04
  RightCtrl := 0x08
  LeftShift := 0x10
  RightShift := 0x20
  LeftMeta := 0x40
  RightMeta := 0x80

/-- From `entry_p.h` and `entry.h`: default size 1280x720, eight windows. -/
def config : Config where
  ENTRY_DEFAULT_WIDTH := 1280
  ENTRY_DEFAULT_HEIGHT := 720
  ENTRY_CONFIG_MAX_WINDOWS := 8
  ENTRY_WINDOW_FLAG_ASPECT_RATIO := 0x1
  ENTRY_WINDOW_FLAG_FRAME := 0x2

/-- An SDL whose `SDL_CreateWindow` returns the window `2 + x` for a window at
horizontal position `x`, whose `SDL_GetWindowWMInfo` succeeds with the native handle
`3`, and in which no window id resolves to a window. -/
def sdlOk : Sdl := ⟨fun _ x _ _ _ => 2 + x.toNat, fun _ => some 3, fun _ => 0⟩

/-- The same SDL, except that `SDL_GetWindowWMInfo` returns `SDL_FALSE`. -/
def sdlNoWMInfo : Sdl := ⟨fun _ x _ _ _ => 2 + x.toNat, fun _ => none, fun _ => 0⟩

/-- The process when `Context::run` enters its loop with the default window `1` and no
command pushed. -/
def world0 : World := ⟨Context.started config 1, []⟩

/-- The process after seven more windows have been created, at positions `1 .. 7`, and
their create commands processed: every one of the eight handles is allocated. -/
def worldFull : World :=
  [1, 2, 3, 4, 5, 6, 7].foldl
    (fun w k => World.pollEvent config sdlOk (createWindow config w k 0 640 480 0 "w").2) world0

end Sdl2

/-! ### Properties of `translateKeyModifiers` -/

theorem or_and_right (x y z : Nat) : (x ||| y) &&& z = (x &&& z) ||| (y &&& z) := by
  rw [Nat.and_comm, Nat.and_or_distrib_left, Nat.and_comm z x, Nat.and_comm z y]

theorem ite_and_right (c : Prop) [Decidable c] (v w : Nat) :
    (if c then v else 0) &&& w = if c then v &&& w else 0 := by
  split <;> simp

theorem ite_or_ite (p q : Prop) [Decidable p] [Decidable q] (v : Nat) :
    (if p ∨ q then v else 0) = (if p then v else 0) ||| (if q then v else 0) := by
  by_cases hp : p <;> by_cases hq : q <;> simp [hp, hq]

theorem or_and_ne_zero (a b k : Nat) : (a ||| b) &&& k ≠ 0 ↔ a &&& k ≠ 0 ∨ b &&& k ≠ 0 := by
  rw [or_and_right]
  constructor
  · intro h
    by_contra hc
    push_neg at hc
    exact h (by rw [hc.1, hc.2]; rfl)
  · rintro (h | h) hc
    · apply h
      apply Nat.eq_of_testBit_eq
      intro i
      have := congrArg (fun n => Nat.testBit n i) hc
      simp only [Nat.testBit_or, Nat.zero_testBit, Bool.or_eq_false_iff] at this
      simpa using this.1
    · apply h
      apply Nat.eq_of_testBit_eq
      intro i
      have := congrArg (fun n => Nat.testBit n i) hc
      simp only [Nat.testBit_or, Nat.zero_testBit, Bool.or_eq_false_iff] at this
      simpa using this.2

theorem ite_lt_256 (c : Prop) [Decidable c] (v : Nat) (h : v < 256) :
    (if c then v else 0) < 256 := by
  split <;> omega

theorem or_lt_256 {x y : Nat} (hx : x < 256) (hy : y < 256) : x ||| y < 256 :=
  @Nat.or_lt_two_pow x y 8 hx hy

/-- With flag values that fit in a byte no store truncates: the result is the plain
disjunction of the selected flags. -/
theorem translateKeyModifiers_eq_or (K : Keymod) (M : Modifier) (hM : M.IsFlagSet) (m : Nat) :
    translateKeyModifiers K M m =
      (if m &&& K.KMOD_LALT ≠ 0 then M.LeftAlt else 0) |||
      (if m &&& K.KMOD_RALT ≠ 0 then M.RightAlt else 0) |||
      (if m &&& K.KMOD_LCTRL ≠ 0 then M.LeftCtrl else 0) |||
      (if m &&& K.KMOD_RCTRL ≠ 0 then M.RightCtrl else 0) |||
      (if m &&& K.KMOD_LSHIFT ≠ 0 then M.LeftShift else 0) |||
      (if m &&& K.KMOD_RSHIFT ≠ 0 then M.RightShift else 0) |||
      (if m &&& K.KMOD_LGUI ≠ 0 then M.LeftMeta else 0) |||
      (if m &&& K.KMOD_RGUI ≠ 0 then M.RightMeta else 0) := by
  obtain ⟨hb, -⟩ := hM
  simp only [Modifier.values, List.mem_cons, List.mem_singleton, forall_eq_or_imp, forall_eq,
    List.not_mem_nil, false_imp_iff, implies_true, and_true] at hb
  obtain ⟨h1, h2, h3, h4, h5, h6, h7, h8⟩ := hb
  have e1 := ite_lt_256 (m &&& K.KMOD_LALT ≠ 0) _ h1.2
  have e2 := or_lt_256 e1 (ite_lt_256 (m &&& K.KMOD_RALT ≠ 0) _ h2.2)
  have e3 := or_lt_256 e2 (ite_lt_256 (m &&& K.KMOD_LCTRL ≠ 0) _ h3.2)
  have e4 := or_lt_256 e3 (ite_lt_256 (m &&& K.KMOD_RCTRL ≠ 0) _ h4.2)
  have e5 := or_lt_256 e4 (ite_lt_256 (m &&& K.KMOD_LSHIFT ≠ 0) _ h5.2)
  have e6 := or_lt_256 e5 (ite_lt_256 (m &&& K.KMOD_RSHIFT ≠ 0) _ h6.2)
  have e7 := or_lt_256 e6 (ite_lt_256 (m &&& K.KMOD_LGUI ≠ 0) _ h7.2)
  have e8 := or_lt_256 e7 (ite_lt_256 (m &&& K.KMOD_RGUI ≠ 0) _ h8.2)
  simp only [translateKeyModifiers, Nat.zero_or]
  rw [Nat.mod_eq_of_lt e1, Nat.mod_eq_of_lt e2, Nat.mod_eq_of_lt e3, Nat.mod_eq_of_lt e4,
    Nat.mod_eq_of_lt e5, Nat.mod_eq_of_lt e6, Nat.mod_eq_of_lt e7, Nat.mod_eq_of_lt e8]

theorem translateKeyModifiers_or (K : Keymod) (M : Modifier) (hM : M.IsFlagSet) (a b : Nat) :
    translateKeyModifiers K M (a ||| b) =
      translateKeyModifiers K M a ||| translateKeyModifiers K M b := by
  simp only [translateKeyModifiers_eq_or K M hM, or_and_ne_zero, ite_or_ite]
  ac_rfl

theorem translateKeyModifiers_zero (K : Keymod) (M : Modifier) :
    translateKeyModifiers K M 0 = 0 := by
  simp [translateKeyModifiers]

theorem translateKeyModifiers_of_disjoint (K : Keymod) (M : Modifier) (x : Nat)
    (h : x &&& K.KMOD_LALT = 0 ∧ x &&& K.KMOD_RALT = 0 ∧ x &&& K.KMOD_LCTRL = 0 ∧
      x &&& K.KMOD_RCTRL = 0 ∧ x &&& K.KMOD_LSHIFT = 0 ∧ x &&& K.KMOD_RSHIFT = 0 ∧
      x &&& K.KMOD_LGUI = 0 ∧ x &&& K.KMOD_RGUI = 0) :
    translateKeyModifiers K M x = 0 := by
  obtain ⟨h1, h2, h3, h4, h5, h6, h7, h8⟩ := h
  simp [translateKeyModifiers, h1, h2, h3, h4, h5, h6, h7, h8]

theorem ite_eq_self_iff (c : Prop) [Decidable c] (v : Nat) (hv : 0 < v) :
    (if c then v else 0) = v ↔ c := by
  split
  · simp_all
  · simp_all; omega

/-- C10. For every native modifier mask `m` (in particular every 16-bit one) each of
the eight abstract modifier flags is set in `translateKeyModifiers m` exactly when the
corresponding `KMOD_*` mask meets `m`; bits of `m` outside the eight masks are ignored;
the function distributes over `|` and maps `0` to `0`. -/
theorem translateKeyModifiers_spec (K : Keymod) (M : Modifier) (hM : M.IsFlagSet) (m : Nat) :
    ((translateKeyModifiers K M m &&& M.LeftAlt = M.LeftAlt ↔ m &&& K.KMOD_LALT ≠ 0) ∧
     (translateKeyModifiers K M m &&& M.RightAlt = M.RightAlt ↔ m &&& K.KMOD_RALT ≠ 0) ∧
     (translateKeyModifiers K M m &&& M.LeftCtrl = M.LeftCtrl ↔ m &&& K.KMOD_LCTRL ≠ 0) ∧
     (translateKeyModifiers K M m &&& M.RightCtrl = M.RightCtrl ↔ m &&& K.KMOD_RCTRL ≠ 0) ∧
     (translateKeyModifiers K M m &&& M.LeftShift = M.LeftShift ↔ m &&& K.KMOD_LSHIFT ≠ 0) ∧
     (translateKeyModifiers K M m &&& M.RightShift = M.RightShift ↔
        m &&& K.KMOD_RSHIFT ≠ 0) ∧
     (translateKeyModifiers K M m &&& M.LeftMeta = M.LeftMeta ↔ m &&& K.KMOD_LGUI ≠ 0) ∧
     (translateKeyModifiers K M m &&& M.RightMeta = M.RightMeta ↔ m &&& K.KMOD_RGUI ≠ 0)) ∧
    (∀ x, (x &&& K.KMOD_LALT = 0 ∧ x &&& K.KMOD_RALT = 0 ∧ x &&& K.KMOD_LCTRL = 0 ∧
        x &&& K.KMOD_RCTRL = 0 ∧ x &&& K.KMOD_LSHIFT = 0 ∧ x &&& K.KMOD_RSHIFT = 0 ∧
        x &&& K.KMOD_LGUI = 0 ∧ x &&& K.KMOD_RGUI = 0) →
      translateKeyModifiers K M (m ||| x) = translateKeyModifiers K M m) ∧
    (∀ b, translateKeyModifiers K M (m ||| b) =
      translateKeyModifiers K M m ||| translateKeyModifiers K M b) ∧
    translateKeyModifiers K M 0 = 0 := by
  refine ⟨?_, ?_, translateKeyModifiers_or K M hM m, translateKeyModifiers_zero K M⟩
  · have hM2 := hM
    obtain ⟨hb, hp⟩ := hM2
    simp only [Modifier.values, List.mem_cons, List.mem_singleton, forall_eq_or_imp, forall_eq,
      List.not_mem_nil, false_imp_iff, implies_true, and_true, List.pairwise_cons,
      List.Pairwise.nil] at hb hp
    obtain ⟨h1, h2, h3, h4, h5, h6, h7, h8⟩ := hb
    obtain ⟨⟨p12, p13, p14, p15, p16, p17, p18⟩, ⟨p23, p24, p25, p26, p27, p28⟩,
      ⟨p34, p35, p36, p37, p38⟩, ⟨p45, p46, p47, p48⟩, ⟨p56, p57, p58⟩, ⟨p67, p68⟩, p78⟩ := hp
    have q12 := (Nat.and_comm _ _).trans p12
    have q13 := (Nat.and_comm _ _).trans p13
    have q14 := (Nat.and_comm _ _).trans p14
    have q15 := (Nat.and_comm _ _).trans p15
    have q16 := (Nat.and_comm _ _).trans p16
    have q17 := (Nat.and_comm _ _).trans p17
    have q18 := (Nat.and_comm _ _).trans p18
    have q23 := (Nat.and_comm _ _).trans p23
    have q24 := (Nat.and_comm _ _).trans p24
    have q25 := (Nat.and_comm _ _).trans p25
    have q26 := (Nat.and_comm _ _).trans p26
    have q27 := (Nat.and_comm _ _).trans p27
    have q28 := (Nat.and_comm _ _).trans p28
    have q34 := (Nat.and_comm _ _).trans p34
    have q35 := (Nat.and_comm _ _).trans p35
    have q36 := (Nat.and_comm _ _).trans p36
    have q37 := (Nat.and_comm _ _).trans p37
    have q38 := (Nat.and_comm _ _).trans p38
    have q45 := (Nat.and_comm _ _).trans p45
    have q46 := (Nat.and_comm _ _).trans p46
    have q47 := (Nat.and_comm _ _).trans p47
    have q48 := (Nat.and_comm _ _).trans p48
    have q56 := (Nat.and_comm _ _).trans p56
    have q57 := (Nat.and_comm _ _).trans p57
    have q58 := (Nat.and_comm _ _).trans p58
    have q67 := (Nat.and_comm _ _).trans p67
    have q68 := (Nat.and_comm _ _).trans p68
    have q78 := (Nat.and_comm _ _).trans p78
    rw [translateKeyModifiers_eq_or K M hM]
    simp only [or_and_right, ite_and_right, Nat.and_self, p12, p13, p14, p15, p16, p17, p18,
      p23, p24, p25, p26, p27, p28, p34, p35, p36, p37, p38, p45, p46, p47, p48, p56, p57, p58,
      p67, p68, p78, q12, q13, q14, q15, q16, q17, q18, q23, q24, q25, q26, q27, q28, q34, q35,
      q36, q37, q38, q45, q46, q47, q48, q56, q57, q58, q67, q68, q78, ite_self, Nat.or_zero,
      Nat.zero_or]
    exact ⟨ite_eq_self_iff _ _ h1.1, ite_eq_self_iff _ _ h2.1, ite_eq_self_iff _ _ h3.1,
      ite_eq_self_iff _ _ h4.1, ite_eq_self_iff _ _ h5.1, ite_eq_self_iff _ _ h6.1,
      ite_eq_self_iff _ _ h7.1, ite_eq_self_iff _ _ h8.1⟩
  · intro x hx
    rw [translateKeyModifiers_or K M hM, translateKeyModifiers_of_disjoint K M x hx,
      Nat.or_zero]

/-- Witness for `translateKeyModifiers_spec`: the flag values of `entry.h` form a flag
set, and for the mask `KMOD_NUM | KMOD_LALT | KMOD_LCTRL | KMOD_LSHIFT` (`0x1141`) the
left-alt flag is set in the result because `KMOD_LALT` is set in the mask. -/
theorem translateKeyModifiers_spec_witness :
    Sdl2.modifier.IsFlagSet ∧
    (translateKeyModifiers Sdl2.keymod Sdl2.modifier 0x1141 &&& Sdl2.modifier.LeftAlt
        = Sdl2.modifier.LeftAlt ↔ 0x1141 &&& Sdl2.keymod.KMOD_LALT ≠ 0) ∧
    translateKeyModifiers Sdl2.keymod Sdl2.modifier 0x1141 = 0x15 :=
  ⟨by decide, (translateKeyModifiers_spec Sdl2.keymod Sdl2.modifier (by decide) 0x1141).1.1,
    by decide⟩

/-! ### Properties of the key translation table -/

theorem and_0xff (x : Nat) : x &&& 0xff = x % 256 :=
  Nat.and_pow_two_sub_one_eq_mod x 8

theorem s_translateKey_zero_length : s_translateKey_zero.length = 256 :=
  List.length_replicate _ _

theorem s_translateKey_zero_getD (j : Nat) : s_translateKey_zero.getD j 0 = 0 := by
  rw [s_translateKey_zero, List.getD_eq_getElem?_getD, List.getElem?_replicate]
  split <;> rfl

theorem initTranslateKey_length (t : List Nat) (sdl key : Nat) :
    (initTranslateKey t sdl key).length = t.length := by
  simp [initTranslateKey]

theorem initTranslateKey_index (sdl : Nat) : (sdl % 65536) &&& 0xff = sdl % 256 := by
  rw [and_0xff]; omega

theorem foldl_initTranslateKey_length (code : SDL_Scancode → Nat) (key : Key → Nat)
    (l : List (SDL_Scancode × Key)) (t : List Nat) :
    (l.foldl (fun t p => initTranslateKey t (code p.1) (key p.2)) t).length = t.length := by
  induction l generalizing t with
  | nil => rfl
  | cons q l ih => rw [List.foldl_cons, ih, initTranslateKey_length]

/-- An entry that no call addresses keeps its value. -/
theorem foldl_initTranslateKey_other (code : SDL_Scancode → Nat) (key : Key → Nat)
    (l : List (SDL_Scancode × Key)) (t : List Nat) (j : Nat)
    (h : ∀ p ∈ l, code p.1 % 256 ≠ j) :
    (l.foldl (fun t p => initTranslateKey t (code p.1) (key p.2)) t).getD j 0 = t.getD j 0 := by
  induction l generalizing t with
  | nil => rfl
  | cons q l ih =>
    rw [List.foldl_cons, ih _ (fun p hp => h p (List.mem_cons_of_mem _ hp))]
    have hq := h q (List.mem_cons_self _ _)
    simp only [initTranslateKey, initTranslateKey_index, List.getD_eq_getElem?_getD]
    rw [List.getElem?_set_ne hq]

/-- An entry addressed by exactly one call holds the byte written by that call. -/
theorem foldl_initTranslateKey_mem (code : SDL_Scancode → Nat) (key : Key → Nat)
    (l : List (SDL_Scancode × Key)) (t : List Nat) (ht : t.length = 256)
    (hl : (l.map (fun p => code p.1 % 256)).Nodup) (p : SDL_Scancode × Key) (hp : p ∈ l) :
    (l.foldl (fun t p => initTranslateKey t (code p.1) (key p.2)) t).getD (code p.1 % 256) 0
      = key p.2 % 256 := by
  induction l generalizing t with
  | nil => cases hp
  | cons q l ih =>
    rw [List.map_cons, List.nodup_cons] at hl
    rw [List.foldl_cons]
    rcases List.mem_cons.1 hp with rfl | hp
    · rw [foldl_initTranslateKey_other]
      · have hlt : code p.1 % 256 < t.length := by rw [ht]; exact Nat.mod_lt _ (by norm_num)
        simp [initTranslateKey, initTranslateKey_index, List.getD_eq_getElem?_getD, hlt]
      · intro r hr heq
        exact hl.1 (List.mem_map.2 ⟨r, hr, heq⟩)
    · exact ih _ (by rw [initTranslateKey_length, ht]) hl.2 hp

/-- C1 (amended). The table built by the `Context` constructor is read at the low byte
of the scancode: a scancode whose low byte is that of a mapped scancode (the mapped
scancode itself in particular) yields the key paired with it in the constructor, and a
scancode whose low byte is the low byte of no mapped scancode yields `0`, the none
key. The mapped scancodes are assumed to have distinct low bytes and the keys to fit in
a byte, as the values of SDL 2 and `entry.h` do. -/
theorem translateKey_spec (code : SDL_Scancode → Nat) (key : Key → Nat)
    (hcode : (Context.initTranslateKeyCalls.map (fun p => code p.1 % 256)).Nodup)
    (hkey : ∀ p ∈ Context.initTranslateKeyCalls, key p.2 < 256) (s : Nat) :
    (∀ p ∈ Context.initTranslateKeyCalls, s % 256 = code p.1 % 256 →
      translateKey (Context.s_translateKey code key) s = key p.2) ∧
    ((∀ p ∈ Context.initTranslateKeyCalls, s % 256 ≠ code p.1 % 256) →
      translateKey (Context.s_translateKey code key) s = 0) := by
  constructor
  · intro p hp hs
    rw [translateKey, and_0xff, hs, Context.s_translateKey,
      foldl_initTranslateKey_mem code key _ _ s_translateKey_zero_length hcode p hp,
      Nat.mod_eq_of_lt (hkey p hp)]
  · intro hs
    rw [translateKey, and_0xff, Context.s_translateKey,
      foldl_initTranslateKey_other code key _ _ _ (fun p hp h => hs p hp h.symm),
      s_translateKey_zero_getD]

/-- Witness for `translateKey_spec`: with the values of SDL 2 and `entry.h` the
hypotheses hold; scancode `4` (`SDL_SCANCODE_A`) yields `Key::KeyA`, and so does scancode
`260`, whose low byte is `4`. -/
theorem translateKey_spec_witness :
    (Context.initTranslateKeyCalls.map (fun p => Sdl2.code p.1 % 256)).Nodup ∧
    (∀ p ∈ Context.initTranslateKeyCalls, Sdl2.key p.2 < 256) ∧
    translateKey (Context.s_translateKey Sdl2.code Sdl2.key) 4 = Sdl2.key Key.KeyA ∧
    translateKey (Context.s_translateKey Sdl2.code Sdl2.key) 260 = Sdl2.key Key.KeyA :=
  ⟨by decide, by decide,
    (translateKey_spec Sdl2.code Sdl2.key (by decide) (by decide) 4).1
      (SDL_Scancode.SDL_SCANCODE_A, Key.KeyA) (by decide) (by decide),
    (translateKey_spec Sdl2.code Sdl2.key (by decide) (by decide) 260).1
      (SDL_Scancode.SDL_SCANCODE_A, Key.KeyA) (by decide) (by decide)⟩

/-- C1 as stated fails: `SDL_SCANCODE_AUDIOSTOP` (260) is none of the scancodes the
constructor maps, yet `translateKey` does not return the none key for it (it returns
`Key::KeyA`, the entry of `SDL_SCANCODE_A = 4 = 260 & 0xff`). -/
theorem translateKey_unmapped_counterexample :
    ¬ (∀ s : Nat, (∀ p ∈ Context.initTranslateKeyCalls, s ≠ Sdl2.code p.1) →
        translateKey (Context.s_translateKey Sdl2.code Sdl2.key) s = 0) := by
  intro h
  have h260 := h Sdl2.SDL_SCANCODE_AUDIOSTOP (by decide)
  revert h260
  decide

/-! ### Properties of the `float` model -/

theorem floorLog2Aux_spec (fuel n : Nat) (hf : n ≤ fuel) (hn : n ≠ 0) :
    2 ^ floorLog2Aux fuel n ≤ n ∧ n < 2 ^ (floorLog2Aux fuel n + 1) := by
  induction fuel generalizing n with
  | zero => omega
  | succ fuel ih =>
    unfold floorLog2Aux
    split
    · constructor <;> simp <;> omega
    · obtain ⟨h1, h2⟩ := ih (n / 2) (by omega) (by omega)
      rw [pow_succ, pow_succ]
      constructor <;> omega

theorem floorLog2_spec {n : Nat} (hn : n ≠ 0) :
    2 ^ floorLog2 n ≤ n ∧ n < 2 ^ (floorLog2 n + 1) :=
  floorLog2Aux_spec n n le_rfl hn

theorem le_floorLog2 {n k : Nat} (h : 2 ^ k ≤ n) : k ≤ floorLog2 n := by
  have hn : n ≠ 0 := by
    have : 0 < 2 ^ k := Nat.pos_pow_of_pos _ (by norm_num)
    omega
  by_contra hc
  have h1 : 2 ^ (floorLog2 n + 1) ≤ 2 ^ k := Nat.pow_le_pow_right (by norm_num) (by omega)
  have := (floorLog2_spec hn).2
  omega

theorem floorLog2_lt {n k : Nat} (hn : n ≠ 0) (h : n < 2 ^ k) : floorLog2 n < k := by
  by_contra hc
  have h1 : 2 ^ k ≤ 2 ^ floorLog2 n := Nat.pow_le_pow_right (by norm_num) (by omega)
  have := (floorLog2_spec hn).1
  omega

theorem roundSig24_of_lt {n : Nat} (h : n < 2 ^ 24) : roundSig24 n = n := by
  unfold roundSig24
  rw [if_pos h]

/-- Above 24 bits the rounding yields one of the two neighbouring multiples of the
quantum `2 ^ s`, and the upper one only when the remainder reaches half a quantum. -/
theorem roundSig24_cases {n : Nat} (h : 2 ^ 24 ≤ n) :
    1 ≤ floorLog2 n - 23 ∧
    (roundSig24 n = n / 2 ^ (floorLog2 n - 23) * 2 ^ (floorLog2 n - 23) ∨
      (roundSig24 n = (n / 2 ^ (floorLog2 n - 23) + 1) * 2 ^ (floorLog2 n - 23) ∧
        2 ^ (floorLog2 n - 23 - 1) ≤ n % 2 ^ (floorLog2 n - 23))) := by
  have hlog : 24 ≤ floorLog2 n := le_floorLog2 h
  refine ⟨by omega, ?_⟩
  have hlt : ¬ n < 2 ^ 24 := by omega
  unfold roundSig24
  rw [if_neg hlt]
  dsimp only
  split
  · exact Or.inl rfl
  · rename_i h1
    split
    · rename_i h2
      exact Or.inr ⟨rfl, le_of_lt h2⟩
    · split
      · exact Or.inl rfl
      · exact Or.inr ⟨rfl, by omega⟩

/-- A number that is a multiple of its own quantum is a `float` and rounds to itself. -/
theorem roundSig24_of_dvd {n : Nat} (h : 2 ^ 24 ≤ n) (hd : 2 ^ (floorLog2 n - 23) ∣ n) :
    roundSig24 n = n := by
  obtain ⟨hs, hc⟩ := roundSig24_cases h
  rcases hc with hc | ⟨-, hc⟩
  · rw [hc, Nat.div_mul_cancel hd]
  · rw [Nat.mod_eq_zero_of_dvd hd] at hc
    have : 0 < 2 ^ (floorLog2 n - 23 - 1) := Nat.pos_pow_of_pos _ (by norm_num)
    omega


/-- The constant `16.0f/9.0f` is the `float` `3817748736 / 2 ^ 31 = 14913081 / 2 ^ 23`,
slightly above `16/9`. -/
theorem aspectRatio_eq : F32.div (F32.ofNat 16) (F32.ofNat 9) = ⟨3817748736, 31⟩ := by
  decide

/-- The quotient `1.0f/(16.0f/9.0f)` is the `float` `324259173170675712 / 2 ^ 59`, which is
`9/16 = 0.5625` exactly. -/
theorem inv_aspectRatio_eq :
    F32.div (F32.ofNat 1) (F32.div (F32.ofNat 16) (F32.ofNat 9)) = ⟨324259173170675712, 59⟩ := by
  decide

/-- Portrait branch: for a width whose ninefold fits in 24 bits the `float` product with
`0.5625` is exact, so the stored height is the truncation of `width * 9 / 16`. -/
theorem toU32_mul_inv_aspectRatio (w : Nat) (hw : w * 9 < 2 ^ 24) :
    F32.toU32 (F32.mul (F32.ofNat w) ⟨324259173170675712, 59⟩) = w * 9 / 16 := by
  have hw24 : w < 2 ^ 24 := by omega
  simp only [F32.toU32, F32.mul, F32.ofNat, roundSig24_of_lt hw24, Nat.zero_add]
  have hc55 : 324259173170675712 = 9 * 2 ^ 55 := by norm_num
  rw [hc55]
  rcases Nat.eq_zero_or_pos w with rfl | hpos
  · decide
  · have e : w * (9 * 2 ^ 55) = w * 9 * 2 ^ 55 := by ring
    rw [e]
    have hpow : 0 < 2 ^ 55 := by norm_num
    have hn : 2 ^ 24 ≤ w * 9 * 2 ^ 55 :=
      calc 2 ^ 24 ≤ 2 ^ 55 := by norm_num
        _ ≤ w * 9 * 2 ^ 55 := Nat.le_mul_of_pos_left _ (by omega)
    have hlt : w * 9 * 2 ^ 55 < 2 ^ 79 :=
      calc w * 9 * 2 ^ 55 < 2 ^ 24 * 2 ^ 55 := Nat.mul_lt_mul_of_pos_right hw hpow
        _ = 2 ^ 79 := by norm_num
    have hlog : floorLog2 (w * 9 * 2 ^ 55) < 79 := floorLog2_lt (by omega) hlt
    have hd : 2 ^ (floorLog2 (w * 9 * 2 ^ 55) - 23) ∣ w * 9 * 2 ^ 55 :=
      Dvd.dvd.mul_left (Nat.pow_dvd_pow 2 (by omega)) _
    rw [roundSig24_of_dvd hn hd]
    have h59 : (2 : Nat) ^ 59 = 16 * 2 ^ 55 := by norm_num
    rw [h59, Nat.mul_div_mul_right _ _ hpow]
    apply Nat.mod_eq_of_lt
    have : (2 : Nat) ^ 32 = 4294967296 := by norm_num
    have h24 : (2 : Nat) ^ 24 = 16777216 := by norm_num
    omega

/-- Landscape branch: for a height below `2 ^ 20` the rounding of the `float` product
with `16.0f/9.0f` never crosses an integer, so the stored width is the truncation of
`height * 16 / 9`. -/
theorem toU32_mul_aspectRatio (h : Nat) (hh : h < 2 ^ 20) :
    F32.toU32 (F32.mul (F32.ofNat h) ⟨3817748736, 31⟩) = h * 16 / 9 := by
  have h20 : (2 : Nat) ^ 20 = 1048576 := by norm_num
  have h24 : (2 : Nat) ^ 24 = 16777216 := by norm_num
  have hh24 : h < 2 ^ 24 := by omega
  simp only [F32.toU32, F32.mul, F32.ofNat, roundSig24_of_lt hh24, Nat.zero_add]
  rcases Nat.eq_zero_or_pos h with rfl | hpos
  · decide
  · have hn : 2 ^ 24 ≤ h * 3817748736 := by omega
    have h52 : (2 : Nat) ^ 52 = 4503599627370496 := by norm_num
    have hlog : floorLog2 (h * 3817748736) < 52 := floorLog2_lt (by omega) (by omega)
    obtain ⟨hs, hc⟩ := roundSig24_cases hn
    generalize hnd : h * 3817748736 = n at *
    generalize hsd : floorLog2 n - 23 = s at *
    have hs28 : s ≤ 28 := by omega
    have hPT : 2 ^ (31 - s) * 2 ^ s = 2 ^ 31 := by
      rw [← pow_add]; congr 1; omega
    have hhalf : 2 ^ s = 2 * 2 ^ (s - 1) := by
      rw [← pow_succ']; congr 1; omega
    have hPle : 2 ^ s ≤ 2 ^ 28 := Nat.pow_le_pow_right (by norm_num) hs28
    have hPpos : 0 < 2 ^ s := Nat.pos_pow_of_pos _ (by norm_num)
    have h28 : (2 : Nat) ^ 28 = 268435456 := by norm_num
    have h31 : (2 : Nat) ^ 31 = 2147483648 := by norm_num
    have h32 : (2 : Nat) ^ 32 = 4294967296 := by norm_num
    have hdm := Nat.div_add_mod n (2 ^ s)
    have hr := Nat.mod_lt n hPpos
    have hlow : h * 16 / 9 * 2 ^ 31 ≤ n / 2 ^ s * 2 ^ s := by
      have h1 : h * 16 / 9 * 2 ^ (31 - s) ≤ n / 2 ^ s := by
        rw [Nat.le_div_iff_mul_le hPpos, Nat.mul_assoc, hPT]
        omega
      calc h * 16 / 9 * 2 ^ 31 = h * 16 / 9 * 2 ^ (31 - s) * 2 ^ s := by
            rw [Nat.mul_assoc, hPT]
        _ ≤ n / 2 ^ s * 2 ^ s := Nat.mul_le_mul_right _ h1
    have hmc : 2 ^ s * (n / 2 ^ s) = n / 2 ^ s * 2 ^ s := Nat.mul_comm _ _
    have hres : roundSig24 n / 2 ^ 31 = h * 16 / 9 := by
      apply Nat.div_eq_of_lt_le
      · rcases hc with hc | ⟨hc, -⟩
        · rw [hc]; exact hlow
        · rw [hc, Nat.add_mul]; omega
      · rcases hc with hc | ⟨hc, hge⟩
        · rw [hc]; omega
        · rw [hc, Nat.add_mul]; omega
    rw [hres]
    apply Nat.mod_eq_of_lt
    omega

/-! ### The resize policy `Context::setWindowSize` -/

theorem setWindowSize_of_same (cfg : Config) (ctx : Context) (handle : WindowHandle)
    (w h : Nat) (force : Bool) (hc : force = false ∧ w = ctx.m_width ∧ h = ctx.m_height) :
    Context.setWindowSize cfg ctx handle w h force = ctx := by
  obtain ⟨h1, h2, h3⟩ := hc
  simp [Context.setWindowSize, h1, h2, h3]

/-- When the guard lets the call through, exactly one native resize is issued and
exactly one `Size` event is appended, both with the stored size. -/
theorem setWindowSize_of_proceeds (cfg : Config) (ctx : Context) (handle : WindowHandle)
    (w h : Nat) (force : Bool) (hc : w ≠ ctx.m_width ∨ h ≠ ctx.m_height ∨ force = true) :
    (Context.setWindowSize cfg ctx handle w h force).m_eventQueue =
        ctx.m_eventQueue ++ [Event.Size handle
          (Context.setWindowSize cfg ctx handle w h force).m_width
          (Context.setWindowSize cfg ctx handle w h force).m_height] ∧
    (Context.setWindowSize cfg ctx handle w h force).sdlCalls =
        ctx.sdlCalls ++ [SdlCall.SDL_SetWindowSize (ctx.windowAt handle.idx)
          (Context.setWindowSize cfg ctx handle w h force).m_width
          (Context.setWindowSize cfg ctx handle w h force).m_height] ∧
    (Context.setWindowSize cfg ctx handle w h force).m_aspectRatio = ctx.m_aspectRatio ∧
    (Context.setWindowSize cfg ctx handle w h force).m_window = ctx.m_window ∧
    (Context.setWindowSize cfg ctx handle w h force).m_flags = ctx.m_flags ∧
    (Context.setWindowSize cfg ctx handle w h force).m_windowAlloc = ctx.m_windowAlloc := by
  unfold Context.setWindowSize
  rw [if_pos hc]
  simp [postSizeEvent]

/-- The stored size after a call that proceeds, branch by branch. -/
theorem setWindowSize_size (cfg : Config) (ctx : Context) (handle : WindowHandle)
    (w h : Nat) (force : Bool) (hc : w ≠ ctx.m_width ∨ h ≠ ctx.m_height ∨ force = true) :
    (w < h →
      (Context.setWindowSize cfg ctx handle w h force).m_width =
          uint32_max (cfg.ENTRY_DEFAULT_WIDTH / 4) w ∧
      (Context.setWindowSize cfg ctx handle w h force).m_height =
          F32.toU32 (F32.mul (F32.ofNat (uint32_max (cfg.ENTRY_DEFAULT_WIDTH / 4) w))
            (F32.div (F32.ofNat 1) ctx.m_aspectRatio))) ∧
    (¬ w < h →
      (Context.setWindowSize cfg ctx handle w h force).m_height =
          uint32_max (cfg.ENTRY_DEFAULT_HEIGHT / 4) h ∧
      (Context.setWindowSize cfg ctx handle w h force).m_width =
          F32.toU32 (F32.mul (F32.ofNat (uint32_max (cfg.ENTRY_DEFAULT_HEIGHT / 4) h))
            ctx.m_aspectRatio)) := by
  unfold Context.setWindowSize
  rw [if_pos hc]
  constructor
  · intro hlt
    simp [hlt]
  · intro hlt
    simp [hlt]

theorem uint32_max_eq_max (a b : Nat) : uint32_max a b = max a b := by
  unfold uint32_max
  split <;> omega

theorem floor_div_ratio (n : Nat) : ⌊(n : ℚ) / (16 / 9)⌋₊ = n * 9 / 16 := by
  have e : (n : ℚ) / (16 / 9) = ((n * 9 : ℕ) : ℚ) / ((16 : ℕ) : ℚ) := by
    push_cast
    field_simp
  rw [e, Nat.floor_div_eq_div]

theorem floor_mul_ratio (n : Nat) : ⌊(n : ℚ) * (16 / 9)⌋₊ = n * 16 / 9 := by
  have e : (n : ℚ) * (16 / 9) = ((n * 16 : ℕ) : ℚ) / ((9 : ℕ) : ℚ) := by
    push_cast
    field_simp
  rw [e, Nat.floor_div_eq_div]

/-- The call returns the context it was given exactly when the guard fails. -/
theorem setWindowSize_eq_self_iff (cfg : Config) (ctx : Context) (handle : WindowHandle)
    (w h : Nat) (force : Bool) :
    Context.setWindowSize cfg ctx handle w h force = ctx ↔
      (force = false ∧ w = ctx.m_width ∧ h = ctx.m_height) := by
  by_cases hc : force = false ∧ w = ctx.m_width ∧ h = ctx.m_height
  · exact ⟨fun _ => hc, fun _ => setWindowSize_of_same cfg ctx handle w h force hc⟩
  · have hp : w ≠ ctx.m_width ∨ h ≠ ctx.m_height ∨ force = true := by
      by_contra hn
      push_neg at hn
      exact hc ⟨by simpa using hn.2.2, hn.1, hn.2.1⟩
    have hq := setWindowSize_of_proceeds cfg ctx handle w h force hp
    refine ⟨fun he => ?_, fun hs => absurd hs hc⟩
    have h1 := hq.1
    rw [he] at h1
    have h2 := congrArg List.length h1
    simp at h2

/-- C4. `Context::setWindowSize` leaves the whole context unchanged (stored size, every
other member, the calls into SDL and the posted events) exactly when `force` is false
and the requested size equals the stored one; in every other case it issues one native
resize and posts one `Size` event. -/
theorem setWindowSize_noop_iff (cfg : Config) (ctx : Context) (handle : WindowHandle)
    (w h : Nat) (force : Bool) :
    (Context.setWindowSize cfg ctx handle w h force = ctx ↔
      (force = false ∧ w = ctx.m_width ∧ h = ctx.m_height)) ∧
    ((force = false ∧ w = ctx.m_width ∧ h = ctx.m_height) ∨
      ((Context.setWindowSize cfg ctx handle w h force).m_eventQueue =
          ctx.m_eventQueue ++ [Event.Size handle
            (Context.setWindowSize cfg ctx handle w h force).m_width
            (Context.setWindowSize cfg ctx handle w h force).m_height] ∧
       (Context.setWindowSize cfg ctx handle w h force).sdlCalls =
          ctx.sdlCalls ++ [SdlCall.SDL_SetWindowSize (ctx.windowAt handle.idx)
            (Context.setWindowSize cfg ctx handle w h force).m_width
            (Context.setWindowSize cfg ctx handle w h force).m_height])) := by
  refine ⟨setWindowSize_eq_self_iff cfg ctx handle w h force, ?_⟩
  by_cases hc : force = false ∧ w = ctx.m_width ∧ h = ctx.m_height
  · exact Or.inl hc
  · have hp : w ≠ ctx.m_width ∨ h ≠ ctx.m_height ∨ force = true := by
      by_contra hn
      push_neg at hn
      exact hc ⟨by simpa using hn.2.2, hn.1, hn.2.1⟩
    have hq := setWindowSize_of_proceeds cfg ctx handle w h force hp
    exact Or.inr ⟨hq.1, hq.2.1⟩

/-- C3 (amended). For a request with width and height below `2 ^ 20` (and defaults whose
quarter is below `2 ^ 20`) on which `Context::setWindowSize` proceeds, with the aspect
ratio `16.0f/9.0f` set by the constructor: if `width < height` the stored width is
`max(ENTRY_DEFAULT_WIDTH/4, width)` and the stored height is the truncation of
`storedWidth / (16/9)`; otherwise the stored height is `max(ENTRY_DEFAULT_HEIGHT/4, height)`
and the stored width is the truncation of `storedHeight * (16/9)`; exactly one `Size`
event is posted and it carries the stored size. -/
theorem setWindowSize_corrected (cfg : Config) (ctx : Context) (handle : WindowHandle)
    (w h : Nat) (force : Bool)
    (hR : ctx.m_aspectRatio = F32.div (F32.ofNat 16) (F32.ofNat 9))
    (hc : w ≠ ctx.m_width ∨ h ≠ ctx.m_height ∨ force = true)
    (hw : w < 2 ^ 20) (hh : h < 2 ^ 20)
    (hdw : cfg.ENTRY_DEFAULT_WIDTH / 4 < 2 ^ 20) (hdh : cfg.ENTRY_DEFAULT_HEIGHT / 4 < 2 ^ 20) :
    (w < h →
      (Context.setWindowSize cfg ctx handle w h force).m_width =
          max (cfg.ENTRY_DEFAULT_WIDTH / 4) w ∧
      (Context.setWindowSize cfg ctx handle w h force).m_height =
          ⌊((Context.setWindowSize cfg ctx handle w h force).m_width : ℚ) / (16 / 9)⌋₊) ∧
    (¬ w < h →
      (Context.setWindowSize cfg ctx handle w h force).m_height =
          max (cfg.ENTRY_DEFAULT_HEIGHT / 4) h ∧
      (Context.setWindowSize cfg ctx handle w h force).m_width =
          ⌊((Context.setWindowSize cfg ctx handle w h force).m_height : ℚ) * (16 / 9)⌋₊) ∧
    (Context.setWindowSize cfg ctx handle w h force).m_eventQueue =
        ctx.m_eventQueue ++ [Event.Size handle
          (Context.setWindowSize cfg ctx handle w h force).m_width
          (Context.setWindowSize cfg ctx handle w h force).m_height] := by
  have hs := setWindowSize_size cfg ctx handle w h force hc
  have h20 : (2 : Nat) ^ 20 = 1048576 := by norm_num
  have h24 : (2 : Nat) ^ 24 = 16777216 := by norm_num
  refine ⟨fun hlt => ?_, fun hge => ?_, (setWindowSize_of_proceeds cfg ctx handle w h force hc).1⟩
  · obtain ⟨e1, e2⟩ := hs.1 hlt
    rw [uint32_max_eq_max] at e1 e2
    refine ⟨e1, ?_⟩
    rw [e2, e1, hR, inv_aspectRatio_eq, floor_div_ratio]
    apply toU32_mul_inv_aspectRatio
    have : max (cfg.ENTRY_DEFAULT_WIDTH / 4) w < 2 ^ 20 := max_lt hdw hw
    omega
  · obtain ⟨e1, e2⟩ := hs.2 hge
    rw [uint32_max_eq_max] at e1 e2
    refine ⟨e1, ?_⟩
    rw [e2, e1, hR, aspectRatio_eq, floor_mul_ratio]
    exact toU32_mul_aspectRatio _ (max_lt hdh hh)

/-- Witness for `setWindowSize_corrected`: with the default size 1280x720 the request
`(100, 300)` is stored, and posted, as `(320, 180)`. -/
theorem setWindowSize_corrected_witness :
    (Context.setWindowSize Sdl2.config (Context.new Sdl2.config) ⟨0⟩ 100 300 false).m_width
        = 320 ∧
    (Context.setWindowSize Sdl2.config (Context.new Sdl2.config) ⟨0⟩ 100 300 false).m_height
        = 180 ∧
    (Context.setWindowSize Sdl2.config (Context.new Sdl2.config) ⟨0⟩ 100 300 false).m_eventQueue
        = [Event.Size ⟨0⟩ 320 180] ∧
    ((100 : Nat) < 300 →
      (Context.setWindowSize Sdl2.config (Context.new Sdl2.config) ⟨0⟩ 100 300 false).m_width =
          max (Sdl2.config.ENTRY_DEFAULT_WIDTH / 4) 100 ∧
      (Context.setWindowSize Sdl2.config (Context.new Sdl2.config) ⟨0⟩ 100 300 false).m_height =
          ⌊((Context.setWindowSize Sdl2.config (Context.new Sdl2.config) ⟨0⟩ 100 300
            false).m_width : ℚ) / (16 / 9)⌋₊) :=
  ⟨by decide, by decide, by decide,
    (setWindowSize_corrected Sdl2.config (Context.new Sdl2.config) ⟨0⟩ 100 300 false rfl
      (by decide) (by decide) (by decide) (by decide) (by decide)).1⟩

/-- C3 as stated fails for large requests: for the portrait request
`(16777219, 16777220)` the conversion `float(m_width)` rounds the width to `16777220`, and
the stored height is `9437186`, whereas the truncation of `16777219 / (16/9)` is
`9437185`. -/
theorem setWindowSize_corrected_counterexample :
    (Context.setWindowSize Sdl2.config (Context.new Sdl2.config) ⟨0⟩ 16777219 16777220
        false).m_width = max (Sdl2.config.ENTRY_DEFAULT_WIDTH / 4) 16777219 ∧
    (Context.setWindowSize Sdl2.config (Context.new Sdl2.config) ⟨0⟩ 16777219 16777220
        false).m_height = 9437186 ∧
    ⌊((Context.setWindowSize Sdl2.config (Context.new Sdl2.config) ⟨0⟩ 16777219 16777220
        false).m_width : ℚ) / (16 / 9)⌋₊ = 9437185 := by
  have e : (Context.setWindowSize Sdl2.config (Context.new Sdl2.config) ⟨0⟩ 16777219 16777220
      false).m_width = 16777219 := by decide
  refine ⟨by decide, by decide, ?_⟩
  rw [e, floor_div_ratio]

/-- C2 (amended). After `setWindowSize(handle, w, h, false)` a second call with the same
`(w, h)` posts no event and changes no state exactly when `(w, h)` is the size that the
first call left stored. So when the first call proceeds and the policy stores the
request unchanged, the two calls post exactly one `Size` event, carrying `(w, h)`; when
the policy corrects the request, the second call proceeds again, stores the same
corrected size as the first call and posts a second `Size` event, so that the two calls
post two `Size` events that both carry the corrected (stored) size. -/
theorem setWindowSize_twice (cfg : Config) (ctx : Context) (handle : WindowHandle)
    (w h : Nat) :
    (Context.setWindowSize cfg (Context.setWindowSize cfg ctx handle w h false) handle w h false
        = Context.setWindowSize cfg ctx handle w h false ↔
      (w = (Context.setWindowSize cfg ctx handle w h false).m_width ∧
       h = (Context.setWindowSize cfg ctx handle w h false).m_height)) ∧
    (((w ≠ ctx.m_width ∨ h ≠ ctx.m_height) ∧
        w = (Context.setWindowSize cfg ctx handle w h false).m_width ∧
        h = (Context.setWindowSize cfg ctx handle w h false).m_height) →
      (Context.setWindowSize cfg (Context.setWindowSize cfg ctx handle w h false) handle w h
        false).m_eventQueue = ctx.m_eventQueue ++ [Event.Size handle w h]) ∧
    (¬ (w = (Context.setWindowSize cfg ctx handle w h false).m_width ∧
        h = (Context.setWindowSize cfg ctx handle w h false).m_height) →
      (Context.setWindowSize cfg (Context.setWindowSize cfg ctx handle w h false)
          handle w h false).m_width =
        (Context.setWindowSize cfg ctx handle w h false).m_width ∧
      (Context.setWindowSize cfg (Context.setWindowSize cfg ctx handle w h false)
          handle w h false).m_height =
        (Context.setWindowSize cfg ctx handle w h false).m_height ∧
      (Context.setWindowSize cfg (Context.setWindowSize cfg ctx handle w h false)
          handle w h false).m_eventQueue =
        ctx.m_eventQueue ++
          [Event.Size handle (Context.setWindowSize cfg ctx handle w h false).m_width
              (Context.setWindowSize cfg ctx handle w h false).m_height,
           Event.Size handle (Context.setWindowSize cfg ctx handle w h false).m_width
              (Context.setWindowSize cfg ctx handle w h false).m_height]) := by
  refine ⟨?_, ?_, ?_⟩
  · rw [setWindowSize_eq_self_iff]
    simp
  · rintro ⟨hne, hw, hh⟩
    rw [setWindowSize_of_same cfg _ handle w h false ⟨rfl, hw, hh⟩]
    have hq := (setWindowSize_of_proceeds cfg ctx handle w h false
      (by rcases hne with hne | hne
          · exact Or.inl hne
          · exact Or.inr (Or.inl hne))).1
    rw [hq, ← hw, ← hh]
  · intro hne
    have hfirst : w ≠ ctx.m_width ∨ h ≠ ctx.m_height ∨ false = true := by
      by_contra hn
      push_neg at hn
      apply hne
      rw [setWindowSize_of_same cfg ctx handle w h false ⟨rfl, hn.1, hn.2.1⟩]
      exact ⟨hn.1, hn.2.1⟩
    have hsecond : w ≠ (Context.setWindowSize cfg ctx handle w h false).m_width ∨
        h ≠ (Context.setWindowSize cfg ctx handle w h false).m_height ∨ false = true := by
      by_contra hn
      push_neg at hn
      exact hne ⟨hn.1, hn.2.1⟩
    have q1 := setWindowSize_of_proceeds cfg ctx handle w h false hfirst
    have q2 := setWindowSize_of_proceeds cfg _ handle w h false hsecond
    have s1 := setWindowSize_size cfg ctx handle w h false hfirst
    have s2 := setWindowSize_size cfg _ handle w h false hsecond
    have ew : (Context.setWindowSize cfg (Context.setWindowSize cfg ctx handle w h false)
        handle w h false).m_width = (Context.setWindowSize cfg ctx handle w h false).m_width := by
      by_cases hlt : w < h
      · rw [(s2.1 hlt).1, (s1.1 hlt).1]
      · rw [(s2.2 hlt).2, (s1.2 hlt).2, q1.2.2.1]
    have eh : (Context.setWindowSize cfg (Context.setWindowSize cfg ctx handle w h false)
        handle w h false).m_height =
          (Context.setWindowSize cfg ctx handle w h false).m_height := by
      by_cases hlt : w < h
      · rw [(s2.1 hlt).2, (s1.1 hlt).2, q1.2.2.1]
      · rw [(s2.2 hlt).1, (s1.2 hlt).1]
    refine ⟨ew, eh, ?_⟩
    have e2 := q2.1
    rw [ew, eh, q1.1] at e2
    rw [e2]
    simp

/-- Witness for `setWindowSize_twice`: from the default size 1280x720 the request
`(320, 180)` differs from the stored size and is stored unchanged, so two calls post
exactly one `Size` event; the request `(100, 300)` is stored as `(320, 180)`, so two
calls post two `Size` events, both with `(320, 180)`. -/
theorem setWindowSize_twice_witness :
    ((320 ≠ (Context.new Sdl2.config).m_width ∨ 180 ≠ (Context.new Sdl2.config).m_height) ∧
      320 = (Context.setWindowSize Sdl2.config (Context.new Sdl2.config) ⟨0⟩ 320 180
        false).m_width ∧
      180 = (Context.setWindowSize Sdl2.config (Context.new Sdl2.config) ⟨0⟩ 320 180
        false).m_height) ∧
    (Context.setWindowSize Sdl2.config
        (Context.setWindowSize Sdl2.config (Context.new Sdl2.config) ⟨0⟩ 320 180 false)
        ⟨0⟩ 320 180 false).m_eventQueue
      = (Context.new Sdl2.config).m_eventQueue ++ [Event.Size ⟨0⟩ 320 180] ∧
    ¬ (100 = (Context.setWindowSize Sdl2.config (Context.new Sdl2.config) ⟨0⟩ 100 300
        false).m_width ∧
      300 = (Context.setWindowSize Sdl2.config (Context.new Sdl2.config) ⟨0⟩ 100 300
        false).m_height) ∧
    (Context.setWindowSize Sdl2.config
        (Context.setWindowSize Sdl2.config (Context.new Sdl2.config) ⟨0⟩ 100 300 false)
        ⟨0⟩ 100 300 false).m_eventQueue
      = (Context.new Sdl2.config).m_eventQueue ++
          [Event.Size ⟨0⟩ 320 180, Event.Size ⟨0⟩ 320 180] :=
  ⟨by decide,
    (setWindowSize_twice Sdl2.config (Context.new Sdl2.config) ⟨0⟩ 320 180).2.1 (by decide),
    by decide,
    ((setWindowSize_twice Sdl2.config (Context.new Sdl2.config) ⟨0⟩ 100 300).2.2
      (by decide)).2.2⟩

/-- C2 as stated fails: from the default size 1280x720 two calls
`setWindowSize(handle, 100, 300, false)` post two `Size` events, because the first call
stores the corrected size `(320, 180)` and the second request therefore still differs
from the stored size. -/
theorem setWindowSize_twice_counterexample :
    (Context.setWindowSize Sdl2.config
        (Context.setWindowSize Sdl2.config (Context.new Sdl2.config) ⟨0⟩ 100 300 false)
        ⟨0⟩ 100 300 false).m_eventQueue
      = (Context.new Sdl2.config).m_eventQueue ++
          [Event.Size ⟨0⟩ 320 180, Event.Size ⟨0⟩ 320 180] ∧
    Context.setWindowSize Sdl2.config
        (Context.setWindowSize Sdl2.config (Context.new Sdl2.config) ⟨0⟩ 100 300 false)
        ⟨0⟩ 100 300 false
      ≠ Context.setWindowSize Sdl2.config (Context.new Sdl2.config) ⟨0⟩ 100 300 false := by
  constructor
  · decide
  · intro he
    have := congrArg (fun c => c.m_eventQueue.length) he
    revert this
    decide

/-! ### The handle allocator and the command functions -/

theorem HandleAlloc.init_wellFormed (MaxHandlesT : Nat) :
    (HandleAlloc.init MaxHandlesT).WellFormed MaxHandlesT :=
  ⟨List.Perm.refl _, Nat.zero_le _⟩

theorem HandleAlloc.WellFormed.length {N : Nat} {a : HandleAlloc} (h : a.WellFormed N) :
    a.m_handles.length = N := by
  rw [h.1.length_eq, List.length_range]

theorem HandleAlloc.WellFormed.nodup {N : Nat} {a : HandleAlloc} (h : a.WellFormed N) :
    a.m_handles.Nodup :=
  h.1.nodup_iff.2 (List.nodup_range N)

theorem HandleAlloc.WellFormed.mem_iff {N : Nat} {a : HandleAlloc} (h : a.WellFormed N)
    (x : Nat) : x ∈ a.m_handles ↔ x < N := by
  rw [h.1.mem_iff, List.mem_range]

/-- In a list without repetition the entry at a position does not occur before it. -/
theorem getElem_not_mem_take {l : List Nat} (hl : l.Nodup) (i : Nat) (hi : i < l.length) :
    l[i] ∉ l.take i := by
  intro hm
  obtain ⟨j, hj, he⟩ := List.mem_take_iff_getElem.1 hm
  have hji : j < i := lt_of_lt_of_le hj (min_le_left _ _)
  have := (@List.Nodup.getElem_inj_iff _ l hl j (lt_trans hji hi) i hi).1 he
  omega

theorem getElem_mem_take_succ (l : List Nat) (i : Nat) (hi : i < l.length) :
    l[i] ∈ l.take (i + 1) :=
  List.mem_take_iff_getElem.2 ⟨i, by simp; omega, rfl⟩

/-- With a free slot `alloc` hands out a handle below the capacity that was not
allocated and now is, and keeps the allocator well formed. -/
theorem HandleAlloc.alloc_of_lt {N : Nat} {a : HandleAlloc} (hwf : a.WellFormed N)
    (hlt : a.m_numHandles < N) :
    (a.alloc N).1 < N ∧ (a.alloc N).1 ∉ a.allocated ∧ (a.alloc N).1 ∈ (a.alloc N).2.allocated ∧
    (a.alloc N).2.WellFormed N ∧ (a.alloc N).2.m_numHandles = a.m_numHandles + 1 ∧
    (a.alloc N).2.m_handles = a.m_handles := by
  have hlen := hwf.length
  have hi : a.m_numHandles < a.m_handles.length := by omega
  simp only [HandleAlloc.alloc, if_pos hlt, HandleAlloc.allocated,
    List.getD_eq_getElem _ _ hi]
  refine ⟨(hwf.mem_iff _).1 (List.getElem_mem _), getElem_not_mem_take hwf.nodup _ hi,
    getElem_mem_take_succ _ _ hi, ⟨hwf.1, by simpa using hlt⟩, trivial, trivial⟩

/-- Without a free slot `alloc` returns the invalid sentinel and changes nothing. -/
theorem HandleAlloc.alloc_of_full {N : Nat} {a : HandleAlloc} (hfull : ¬ a.m_numHandles < N) :
    a.alloc N = (UINT16_MAX, a) := by
  simp [HandleAlloc.alloc, hfull]


/-- The entries of a list after two of its entries have changed places. -/
theorem getElem_swap (l : List Nat) (i j : Nat) (hi : i < l.length) (hj : j < l.length)
    (k : Nat) (hk : k < l.length) (hk2 : k < ((l.set j l[i]).set i l[j]).length) :
    ((l.set j l[i]).set i l[j])[k] =
      if k = i then l[j] else if k = j then l[i] else l[k] := by
  rw [List.getElem_set]
  by_cases h1 : i = k
  · simp [h1]
  · rw [if_neg h1, if_neg (fun h => h1 h.symm), List.getElem_set]
    by_cases h2 : j = k
    · simp [h2]
    · rw [if_neg h2, if_neg (fun h => h2 h.symm)]

/-- Exchanging two entries keeps a list free of repetitions. -/
theorem swap_nodup (l : List Nat) (hl : l.Nodup) (i j : Nat) (hi : i < l.length)
    (hj : j < l.length) : ((l.set j l[i]).set i l[j]).Nodup := by
  rw [List.Nodup, List.pairwise_iff_getElem]
  intro a b ha hb hab
  have ha' : a < l.length := by simpa using ha
  have hb' : b < l.length := by simpa using hb
  rw [getElem_swap l i j hi hj a ha' ha, getElem_swap l i j hi hj b hb' hb]
  intro he
  split_ifs at he <;>
    first
    | omega
    | exact absurd ((hl.getElem_inj_iff).1 he) (by omega)

/-- Exchanging two entries keeps the members of a list. -/
theorem swap_mem (l : List Nat) (i j : Nat) (hi : i < l.length) (hj : j < l.length) (y : Nat) :
    y ∈ (l.set j l[i]).set i l[j] ↔ y ∈ l := by
  constructor
  · intro h
    obtain ⟨k, hk, rfl⟩ := List.mem_iff_getElem.1 h
    have hk' : k < l.length := by simpa using hk
    rw [getElem_swap l i j hi hj k hk' hk]
    split_ifs <;> exact List.getElem_mem _
  · intro h
    obtain ⟨k, hk, rfl⟩ := List.mem_iff_getElem.1 h
    by_cases h1 : k = i
    · subst h1
      refine List.mem_iff_getElem.2 ⟨j, by simpa using hj, ?_⟩
      rw [getElem_swap l k j hk hj j hj (by simpa using hj)]
      by_cases h2 : j = k
      · subst h2; simp
      · simp [h2]
    · by_cases h2 : k = j
      · subst h2
        refine List.mem_iff_getElem.2 ⟨i, by simpa using hi, ?_⟩
        rw [getElem_swap l i k hi hk i hi (by simpa using hi)]
        simp
      · refine List.mem_iff_getElem.2 ⟨k, by simpa using hk, ?_⟩
        rw [getElem_swap l i j hi hj k hk (by simpa using hk)]
        simp [h1, h2]

/-- Freeing an allocated handle keeps the allocator well formed, lowers the count by one
and removes the handle from the allocated ones. -/
theorem HandleAlloc.free_wellFormed {N : Nat} {a : HandleAlloc} (hwf : a.WellFormed N)
    (hN : N ≤ UINT16_MAX) (x : Nat) (hx : x ∈ a.allocated) :
    (a.free x).WellFormed N ∧ (a.free x).m_numHandles = a.m_numHandles - 1 ∧
    x ∉ (a.free x).allocated := by
  have hU : UINT16_MAX = 65535 := rfl
  have hlen := hwf.length
  have hnum := hwf.2
  have hl := hwf.nodup
  obtain ⟨i, hi, he⟩ := List.mem_take_iff_getElem.1 hx
  have hin : i < a.m_numHandles := lt_of_lt_of_le hi (min_le_left _ _)
  have hil : i < a.m_handles.length := lt_of_lt_of_le hi (min_le_right _ _)
  have hj : a.m_numHandles - 1 < a.m_handles.length := by omega
  have hm : (a.m_numHandles + 65535) % 65536 = a.m_numHandles - 1 := by omega
  have hidx : List.indexOf x a.m_handles = i := by
    rw [← he]; exact List.indexOf_getElem hl i hil
  have hfree : a.free x =
      ⟨(a.m_handles.set (a.m_numHandles - 1) a.m_handles[i]).set i
        a.m_handles[a.m_numHandles - 1], a.m_numHandles - 1⟩ := by
    simp only [HandleAlloc.free, hm, hidx, List.getD_eq_getElem _ _ hj, he]
  have hnd := swap_nodup a.m_handles hl i (a.m_numHandles - 1) hil hj
  rw [hfree]
  refine ⟨⟨?_, by simp only; omega⟩, rfl, ?_⟩
  · rw [List.perm_ext_iff_of_nodup hnd (List.nodup_range N)]
    intro y
    rw [swap_mem a.m_handles i (a.m_numHandles - 1) hil hj, hwf.mem_iff, List.mem_range]
  · have hk : a.m_numHandles - 1 <
        ((a.m_handles.set (a.m_numHandles - 1) a.m_handles[i]).set i
          a.m_handles[a.m_numHandles - 1]).length := by simpa using hj
    have hx' : ((a.m_handles.set (a.m_numHandles - 1) a.m_handles[i]).set i
        a.m_handles[a.m_numHandles - 1])[a.m_numHandles - 1] = x := by
      rw [getElem_swap a.m_handles i (a.m_numHandles - 1) hil hj _ hj hk]
      by_cases h1 : a.m_numHandles - 1 = i
      · simp only [h1, if_true]; rw [← he]
      · simp [h1, he]
    have := getElem_not_mem_take hnd (a.m_numHandles - 1) hk
    rw [hx'] at this
    exact this

/-- The handle that `free` releases is the one that the next `alloc` hands out. -/
theorem HandleAlloc.alloc_free {N : Nat} {a : HandleAlloc} (hlen : a.m_handles.length = N)
    (hnum : 1 ≤ a.m_numHandles) (hle : a.m_numHandles ≤ N) (hN : N ≤ UINT16_MAX) (x : Nat) :
    ((a.free x).alloc N).1 = x ∧ (a.free x).m_numHandles = a.m_numHandles - 1 := by
  have hU : UINT16_MAX = 65535 := rfl
  have hm : (a.m_numHandles + 65535) % 65536 = a.m_numHandles - 1 := by omega
  have hlt : a.m_numHandles - 1 < N := by omega
  have hi : a.m_numHandles - 1 < a.m_handles.length := by omega
  simp only [HandleAlloc.alloc, HandleAlloc.free, hm, if_pos hlt, and_true]
  rw [List.getD_eq_getElem _ _ (by simpa using hi), List.getElem_set]
  split
  · rename_i he
    rw [List.getD_eq_getElem _ _ hi]
    have hidx : List.indexOf x a.m_handles < a.m_handles.length := by omega
    have := List.getElem_indexOf hidx
    simp only [he] at this
    exact this
  · rw [List.getElem_set_self]

/-- With a free slot `createWindow` returns a fresh handle below the capacity and pushes
one create command carrying it and the arguments. -/
theorem createWindow_spec_aux (cfg : Config) (w : World) (x y : Int) (width height flags : Nat)
    (title : String)
    (hwf : w.s_ctx.m_windowAlloc.WellFormed cfg.ENTRY_CONFIG_MAX_WINDOWS)
    (hmax : cfg.ENTRY_CONFIG_MAX_WINDOWS ≤ UINT16_MAX)
    (hlt : w.s_ctx.m_windowAlloc.m_numHandles < cfg.ENTRY_CONFIG_MAX_WINDOWS) :
    (createWindow cfg w x y width height flags title).1.idx < cfg.ENTRY_CONFIG_MAX_WINDOWS ∧
    (createWindow cfg w x y width height flags title).1.idx ∉
      w.s_ctx.m_windowAlloc.allocated ∧
    (createWindow cfg w x y width height flags title).1.idx ∈
      (createWindow cfg w x y width height flags title).2.s_ctx.m_windowAlloc.allocated ∧
    (createWindow cfg w x y width height flags title).2.pushed =
      w.pushed ++ [SDL_UserEvent.SDL_USER_WINDOW_CREATE
        (createWindow cfg w x y width height flags title).1.idx
        ⟨x, y, width, height, flags, title⟩] := by
  have hU : UINT16_MAX = 65535 := rfl
  obtain ⟨h1, h2, h3, -, -, -⟩ := HandleAlloc.alloc_of_lt hwf hlt
  have hne : UINT16_MAX ≠
      (w.s_ctx.m_windowAlloc.alloc cfg.ENTRY_CONFIG_MAX_WINDOWS).1 := by omega
  simp only [createWindow, if_pos hne, World.SDL_PushEvent, Msg.new]
  exact ⟨h1, h2, h3, trivial⟩

/-- C5. `createWindow` fails only through its return value. With every handle
allocated it returns the invalid handle (`idx = UINT16_MAX`), pushes no command and
leaves the whole state, the allocator included, unchanged. With a free slot it returns
a handle with `idx < ENTRY_CONFIG_MAX_WINDOWS` that was not allocated before and is
allocated afterwards, and pushes exactly one create command, which carries that handle
and the given position, size, flags and title. After one `destroyWindow` of a valid
handle on a full table the next `createWindow` succeeds. -/
theorem createWindow_spec (cfg : Config) (w : World) (x y : Int) (width height flags : Nat)
    (title : String)
    (hwf : w.s_ctx.m_windowAlloc.WellFormed cfg.ENTRY_CONFIG_MAX_WINDOWS)
    (hmax : cfg.ENTRY_CONFIG_MAX_WINDOWS ≤ UINT16_MAX) :
    (w.s_ctx.m_windowAlloc.m_numHandles = cfg.ENTRY_CONFIG_MAX_WINDOWS →
      createWindow cfg w x y width height flags title = (⟨UINT16_MAX⟩, w)) ∧
    (w.s_ctx.m_windowAlloc.m_numHandles < cfg.ENTRY_CONFIG_MAX_WINDOWS →
      (createWindow cfg w x y width height flags title).1.idx < cfg.ENTRY_CONFIG_MAX_WINDOWS ∧
      (createWindow cfg w x y width height flags title).1.idx ∉
        w.s_ctx.m_windowAlloc.allocated ∧
      (createWindow cfg w x y width height flags title).1.idx ∈
        (createWindow cfg w x y width height flags title).2.s_ctx.m_windowAlloc.allocated ∧
      (createWindow cfg w x y width height flags title).2.pushed =
        w.pushed ++ [SDL_UserEvent.SDL_USER_WINDOW_CREATE
          (createWindow cfg w x y width height flags title).1.idx
          ⟨x, y, width, height, flags, title⟩]) ∧
    (w.s_ctx.m_windowAlloc.m_numHandles = cfg.ENTRY_CONFIG_MAX_WINDOWS →
      ∀ h : WindowHandle, h.idx < cfg.ENTRY_CONFIG_MAX_WINDOWS →
        (createWindow cfg (destroyWindow w h) x y width height flags title).1.idx <
          cfg.ENTRY_CONFIG_MAX_WINDOWS ∧
        (createWindow cfg (destroyWindow w h) x y width height flags title).2.pushed =
          (destroyWindow w h).pushed ++ [SDL_UserEvent.SDL_USER_WINDOW_CREATE
            (createWindow cfg (destroyWindow w h) x y width height flags title).1.idx
            ⟨x, y, width, height, flags, title⟩]) := by
  have hU : UINT16_MAX = 65535 := rfl
  refine ⟨fun hfull => ?_, fun hlt => ?_, fun hfull h hh => ?_⟩
  · have hnl : ¬ w.s_ctx.m_windowAlloc.m_numHandles < cfg.ENTRY_CONFIG_MAX_WINDOWS := by omega
    simp [createWindow, HandleAlloc.alloc_of_full hnl]
  · exact createWindow_spec_aux cfg w x y width height flags title hwf hmax hlt
  · have hne0 : UINT16_MAX ≠ h.idx := by omega
    have hd : (destroyWindow w h).s_ctx.m_windowAlloc = w.s_ctx.m_windowAlloc.free h.idx := by
      simp [destroyWindow, hne0, World.SDL_PushEvent]
    obtain ⟨e1, -⟩ := HandleAlloc.alloc_free hwf.length (by omega) (by omega) hmax h.idx
    have hne : UINT16_MAX ≠
        ((destroyWindow w h).s_ctx.m_windowAlloc.alloc cfg.ENTRY_CONFIG_MAX_WINDOWS).1 := by
      rw [hd, e1]; exact hne0
    simp only [createWindow, if_pos hne, World.SDL_PushEvent, Msg.new]
    rw [hd, e1]
    exact ⟨hh, trivial⟩

/-- Witness for `createWindow_spec`: after `Context::run` has taken handle `0` of the
eight, `createWindow` returns handle `1` and pushes one create command for it. -/
theorem createWindow_spec_witness :
    (Context.started Sdl2.config 1).m_windowAlloc.WellFormed
        Sdl2.config.ENTRY_CONFIG_MAX_WINDOWS ∧
    Sdl2.config.ENTRY_CONFIG_MAX_WINDOWS ≤ UINT16_MAX ∧
    (createWindow Sdl2.config ⟨Context.started Sdl2.config 1, []⟩ 10 20 640 480 3 "w").1
        = ⟨1⟩ ∧
    (createWindow Sdl2.config ⟨Context.started Sdl2.config 1, []⟩ 10 20 640 480 3 "w").2.pushed
        = [SDL_UserEvent.SDL_USER_WINDOW_CREATE 1 ⟨10, 20, 640, 480, 3, "w"⟩] :=
  ⟨by decide, by decide, by decide,
    ((createWindow_spec Sdl2.config ⟨Context.started Sdl2.config 1, []⟩ 10 20 640 480 3 "w"
      (by decide) (by decide)).2.1 (by decide)).2.2.2⟩

/-! ### Window lookup and the user-event branches of `Context::run` -/

/-- The scan from position `ii` over `n` positions returns the first position whose slot
holds the window, and the invalid handle when no position does. -/
theorem findHandleFrom_spec (ctx : Context) (window : Nat) (n ii : Nat) :
    (∃ j, ii ≤ j ∧ j < ii + n ∧
        Context.findHandleFrom ctx window n ii = ⟨ctx.m_windowAlloc.getHandleAt j⟩ ∧
        window = ctx.windowAt (ctx.m_windowAlloc.getHandleAt j) ∧
        ∀ k, ii ≤ k → k < j → window ≠ ctx.windowAt (ctx.m_windowAlloc.getHandleAt k)) ∨
    (Context.findHandleFrom ctx window n ii = ⟨UINT16_MAX⟩ ∧
        ∀ k, ii ≤ k → k < ii + n →
          window ≠ ctx.windowAt (ctx.m_windowAlloc.getHandleAt k)) := by
  induction n generalizing ii with
  | zero =>
    right
    exact ⟨rfl, fun k h1 h2 => by omega⟩
  | succ n ih =>
    unfold Context.findHandleFrom
    by_cases hw : window = ctx.windowAt (ctx.m_windowAlloc.getHandleAt ii)
    · left
      refine ⟨ii, le_rfl, by omega, by simp [← hw], hw, fun k h1 h2 => by omega⟩
    · simp only [if_neg hw]
      rcases ih (ii + 1) with ⟨j, h1, h2, h3, h4, h5⟩ | ⟨h1, h2⟩
      · left
        refine ⟨j, by omega, by omega, h3, h4, fun k hk1 hk2 => ?_⟩
        rcases Nat.eq_or_lt_of_le hk1 with rfl | hlt
        · exact hw
        · exact h5 k hlt hk2
      · right
        refine ⟨h1, fun k hk1 hk2 => ?_⟩
        rcases Nat.eq_or_lt_of_le hk1 with rfl | hlt
        · exact hw
        · exact h2 k hlt (by omega)

/-- What `findHandle` does: a handle other than the invalid one is returned only if it
is allocated and its slot holds the pointer that `SDL_GetWindowFromID` returned, and it
is the first such handle in the order of the allocator; the invalid handle is returned
only if no allocated slot holds that pointer. A `NULL` pointer, returned for an id
without window, is compared like any other. -/
theorem findHandle_spec (cfg : Config) (sdl : Sdl) (ctx : Context) (id : Nat)
    (hwf : ctx.m_windowAlloc.WellFormed cfg.ENTRY_CONFIG_MAX_WINDOWS)
    (hmax : cfg.ENTRY_CONFIG_MAX_WINDOWS ≤ UINT16_MAX) :
    ((Context.findHandle sdl ctx id).idx ≠ UINT16_MAX →
      (Context.findHandle sdl ctx id).idx ∈ ctx.m_windowAlloc.allocated ∧
      ctx.windowAt (Context.findHandle sdl ctx id).idx = sdl.SDL_GetWindowFromID id) ∧
    ((Context.findHandle sdl ctx id).idx = UINT16_MAX ↔
      ∀ h ∈ ctx.m_windowAlloc.allocated, ctx.windowAt h ≠ sdl.SDL_GetWindowFromID id) := by
  have hlen := hwf.length
  have hnum := hwf.2
  have hall : ∀ k, k < ctx.m_windowAlloc.m_numHandles →
      ctx.m_windowAlloc.getHandleAt k ∈ ctx.m_windowAlloc.allocated ∧
      ctx.m_windowAlloc.getHandleAt k < cfg.ENTRY_CONFIG_MAX_WINDOWS := by
    intro k hk
    have hkl : k < ctx.m_windowAlloc.m_handles.length := by omega
    rw [HandleAlloc.getHandleAt, List.getD_eq_getElem _ _ hkl]
    exact ⟨List.mem_take_iff_getElem.2 ⟨k, by simp; omega, rfl⟩,
      (hwf.mem_iff _).1 (List.getElem_mem _)⟩
  have hmem : ∀ h ∈ ctx.m_windowAlloc.allocated, ∃ k, k < ctx.m_windowAlloc.m_numHandles ∧
      ctx.m_windowAlloc.getHandleAt k = h := by
    intro h hh
    obtain ⟨k, hk, he⟩ := List.mem_take_iff_getElem.1 hh
    have hk1 : k < ctx.m_windowAlloc.m_numHandles := lt_of_lt_of_le hk (min_le_left _ _)
    have hkl : k < ctx.m_windowAlloc.m_handles.length := by omega
    exact ⟨k, hk1, by rw [HandleAlloc.getHandleAt, List.getD_eq_getElem _ _ hkl]; exact he⟩
  unfold Context.findHandle Context.findHandleWindow HandleAlloc.getNumHandles
  rcases findHandleFrom_spec ctx (sdl.SDL_GetWindowFromID id)
      ctx.m_windowAlloc.m_numHandles 0 with ⟨j, -, h2, h3, h4, -⟩ | ⟨h1, h2⟩
  · have hj := hall j (by omega)
    simp only [h3]
    refine ⟨fun _ => ⟨hj.1, h4.symm⟩, ⟨fun he => ?_, fun hn => ?_⟩⟩
    · have : UINT16_MAX = 65535 := rfl
      omega
    · exact absurd h4.symm (hn _ hj.1)
  · simp only [h1]
    refine ⟨fun hne => absurd rfl hne, ⟨fun _ h hh => ?_, fun _ => trivial⟩⟩
    obtain ⟨k, hk, rfl⟩ := hmem h hh
    exact fun he => h2 k (Nat.zero_le _) (by omega) he.symm

/-- C9 at the failing input. Handle `1` has been allocated by `createWindow` and its
create command is not yet processed, so slot `1` still holds `NULL`. For an id that
resolves to no window `SDL_GetWindowFromID` returns `NULL`, and `findHandle` returns
handle `1` instead of the invalid handle. -/
theorem findHandle_unresolved_id :
    Sdl2.sdlOk.SDL_GetWindowFromID 77 = 0 ∧
    (createWindow Sdl2.config Sdl2.world0 0 0 640 480 0 "w").1 = ⟨1⟩ ∧
    (createWindow Sdl2.config Sdl2.world0 0 0 640 480 0 "w").2.s_ctx.windowAt 1 = 0 ∧
    Context.findHandle Sdl2.sdlOk
      (createWindow Sdl2.config Sdl2.world0 0 0 640 480 0 "w").2.s_ctx 77 = ⟨1⟩ ∧
    (⟨1⟩ : WindowHandle) ≠ ⟨UINT16_MAX⟩ := by
  decide

/-- C6 at the failing input. With only the default window allocated, a set-size command
`(800, 600)` whose window id resolves to no window makes `findHandle` return the invalid
handle, and `Context::setWindowSize` runs all the same: the stored size changes from
`1280x720` to `1066x600`, `SDL_SetWindowSize` is called on `m_window[65535]`, outside the
array of eight slots, and a `Size` event for handle `65535` is posted. -/
theorem runUserEvent_setSize_invalid_handle :
    Context.findHandle Sdl2.sdlOk Sdl2.world0.s_ctx 77 = ⟨UINT16_MAX⟩ ∧
    (Sdl2.world0.s_ctx.m_width, Sdl2.world0.s_ctx.m_height) = (1280, 720) ∧
    ((Context.runUserEvent Sdl2.config Sdl2.sdlOk Sdl2.world0.s_ctx
        (SDL_UserEvent.SDL_USER_WINDOW_SET_SIZE 77 800 600)).m_width,
     (Context.runUserEvent Sdl2.config Sdl2.sdlOk Sdl2.world0.s_ctx
        (SDL_UserEvent.SDL_USER_WINDOW_SET_SIZE 77 800 600)).m_height) = (1066, 600) ∧
    (Context.runUserEvent Sdl2.config Sdl2.sdlOk Sdl2.world0.s_ctx
        (SDL_UserEvent.SDL_USER_WINDOW_SET_SIZE 77 800 600)).m_eventQueue =
      Sdl2.world0.s_ctx.m_eventQueue ++ [Event.Size ⟨65535⟩ 1066 600] ∧
    (Context.runUserEvent Sdl2.config Sdl2.sdlOk Sdl2.world0.s_ctx
        (SDL_UserEvent.SDL_USER_WINDOW_SET_SIZE 77 800 600)).sdlCalls =
      Sdl2.world0.s_ctx.sdlCalls ++
        [SdlCall.SDL_SetWindowSize (Sdl2.world0.s_ctx.windowAt 65535) 1066 600] ∧
    Sdl2.world0.s_ctx.m_window.length = 8 := by
  decide

/-- C7 at the failing input. All eight handles are allocated, every create command is
processed and the queue of commands is empty. Then `destroyWindow(1)` is followed
immediately by `createWindow`. Index `1` is the only free one, and the new window gets
it while the destroy command for index `1` is still in the queue, ahead of the new
create command; processing that command posts the old window's `Window` event without
native handle (window destroyed) for index `1`. -/
theorem createWindow_reuses_destroyed_handle :
    Sdl2.worldFull.s_ctx.m_windowAlloc.allocated = [0, 1, 2, 3, 4, 5, 6, 7] ∧
    Sdl2.worldFull.pushed = [] ∧
    (destroyWindow Sdl2.worldFull ⟨1⟩).s_ctx.m_windowAlloc.allocated = [0, 7, 2, 3, 4, 5, 6] ∧
    (createWindow Sdl2.config (destroyWindow Sdl2.worldFull ⟨1⟩) 9 9 320 240 0 "b").1 = ⟨1⟩ ∧
    (createWindow Sdl2.config (destroyWindow Sdl2.worldFull ⟨1⟩) 9 9 320 240 0 "b").2.pushed =
      [SDL_UserEvent.SDL_USER_WINDOW_DESTROY 1,
       SDL_UserEvent.SDL_USER_WINDOW_CREATE 1 ⟨9, 9, 320, 240, 0, "b"⟩] ∧
    (World.pollEvent Sdl2.config Sdl2.sdlOk
        (createWindow Sdl2.config (destroyWindow Sdl2.worldFull ⟨1⟩) 9 9 320 240 0
          "b").2).s_ctx.m_eventQueue =
      Sdl2.worldFull.s_ctx.m_eventQueue ++ [Event.Window ⟨1⟩ 0] := by
  decide

/-- Processing a create command for a slot of the window table: the window and the
flags are stored in the slot; the events depend on `SDL_GetWindowWMInfo`. -/
theorem runUserEvent_create (cfg : Config) (sdl : Sdl) (ctx : Context) (idx : Nat) (msg : Msg)
    (h16 : idx < 65536) (hwin : idx < ctx.m_window.length) (hflags : idx < ctx.m_flags.length) :
    (Context.runUserEvent cfg sdl ctx (SDL_UserEvent.SDL_USER_WINDOW_CREATE idx msg)).m_flags.getD
        idx 0 = msg.m_flags ∧
    (Context.runUserEvent cfg sdl ctx (SDL_UserEvent.SDL_USER_WINDOW_CREATE idx msg)).m_window.getD
        idx 0 = sdl.SDL_CreateWindow msg.m_title msg.m_x msg.m_y msg.m_width msg.m_height ∧
    (∀ nwh, sdl.SDL_GetWindowWMInfo
        (sdl.SDL_CreateWindow msg.m_title msg.m_x msg.m_y msg.m_width msg.m_height) = some nwh →
      (Context.runUserEvent cfg sdl ctx
          (SDL_UserEvent.SDL_USER_WINDOW_CREATE idx msg)).m_eventQueue =
        ctx.m_eventQueue ++
          [Event.Window ⟨idx⟩ nwh, Event.Size ⟨idx⟩ msg.m_width msg.m_height]) ∧
    (sdl.SDL_GetWindowWMInfo
        (sdl.SDL_CreateWindow msg.m_title msg.m_x msg.m_y msg.m_width msg.m_height) = none →
      (Context.runUserEvent cfg sdl ctx
          (SDL_UserEvent.SDL_USER_WINDOW_CREATE idx msg)).m_eventQueue = ctx.m_eventQueue) := by
  have hmod : idx % 65536 = idx := Nat.mod_eq_of_lt h16
  have hget : (ctx.m_window.set idx
      (sdl.SDL_CreateWindow msg.m_title msg.m_x msg.m_y msg.m_width msg.m_height)).getD idx 0 =
      sdl.SDL_CreateWindow msg.m_title msg.m_x msg.m_y msg.m_width msg.m_height := by
    rw [List.getD_eq_getElem _ _ (by simpa using hwin), List.getElem_set_self]
  have hgetf : (ctx.m_flags.set idx msg.m_flags).getD idx 0 = msg.m_flags := by
    rw [List.getD_eq_getElem _ _ (by simpa using hflags), List.getElem_set_self]
  simp only [Context.runUserEvent, Context.windowAt, hmod, hget, postWindowEvent, postSizeEvent]
  cases hwm : sdl.SDL_GetWindowWMInfo
      (sdl.SDL_CreateWindow msg.m_title msg.m_x msg.m_y msg.m_width msg.m_height) with
  | none =>
    simp only [reduceCtorEq, false_imp_iff, implies_true, true_imp_iff, and_true]
    exact ⟨hgetf, hget⟩
  | some nwh =>
    simp only [Option.some.injEq, forall_eq', reduceCtorEq, false_imp_iff, and_true]
    exact ⟨hgetf, hget, by simp⟩

/-- C8 (amended). A successful `createWindow(x, y, width, height, flags, title)` returning
handle `h` pushes one create command for `h`. When the event loop processes that
command it stores the flags (and the new window) in slot `h`. If `SDL_GetWindowWMInfo`
succeeds for the new window, it posts exactly one `Window` event for `h` carrying the
native window handle, followed by one `Size` event for `h` with the width and height
of the command; if `SDL_GetWindowWMInfo` fails, it posts no event. -/
theorem createWindow_command_processed (cfg : Config) (sdl : Sdl) (w : World) (x y : Int)
    (width height flags : Nat) (title : String) (ctx : Context)
    (hwf : w.s_ctx.m_windowAlloc.WellFormed cfg.ENTRY_CONFIG_MAX_WINDOWS)
    (hmax : cfg.ENTRY_CONFIG_MAX_WINDOWS ≤ UINT16_MAX)
    (hlt : w.s_ctx.m_windowAlloc.m_numHandles < cfg.ENTRY_CONFIG_MAX_WINDOWS)
    (hwin : ctx.m_window.length = cfg.ENTRY_CONFIG_MAX_WINDOWS)
    (hflags : ctx.m_flags.length = cfg.ENTRY_CONFIG_MAX_WINDOWS) :
    (createWindow cfg w x y width height flags title).2.pushed =
      w.pushed ++ [SDL_UserEvent.SDL_USER_WINDOW_CREATE
        (createWindow cfg w x y width height flags title).1.idx
        ⟨x, y, width, height, flags, title⟩] ∧
    (Context.runUserEvent cfg sdl ctx (SDL_UserEvent.SDL_USER_WINDOW_CREATE
        (createWindow cfg w x y width height flags title).1.idx
        ⟨x, y, width, height, flags, title⟩)).m_flags.getD
      (createWindow cfg w x y width height flags title).1.idx 0 = flags ∧
    (∀ nwh, sdl.SDL_GetWindowWMInfo (sdl.SDL_CreateWindow title x y width height) = some nwh →
      (Context.runUserEvent cfg sdl ctx (SDL_UserEvent.SDL_USER_WINDOW_CREATE
          (createWindow cfg w x y width height flags title).1.idx
          ⟨x, y, width, height, flags, title⟩)).m_eventQueue =
        ctx.m_eventQueue ++
          [Event.Window (createWindow cfg w x y width height flags title).1 nwh,
           Event.Size (createWindow cfg w x y width height flags title).1 width height]) ∧
    (sdl.SDL_GetWindowWMInfo (sdl.SDL_CreateWindow title x y width height) = none →
      (Context.runUserEvent cfg sdl ctx (SDL_UserEvent.SDL_USER_WINDOW_CREATE
          (createWindow cfg w x y width height flags title).1.idx
          ⟨x, y, width, height, flags, title⟩)).m_eventQueue = ctx.m_eventQueue) := by
  obtain ⟨h1, -, -, h4⟩ := (createWindow_spec_aux cfg w x y width height flags title hwf hmax) hlt
  have hU : UINT16_MAX = 65535 := rfl
  obtain ⟨e1, -, e3, e4⟩ := runUserEvent_create cfg sdl ctx
    (createWindow cfg w x y width height flags title).1.idx ⟨x, y, width, height, flags, title⟩
    (by omega) (by omega) (by omega)
  exact ⟨h4, e1, e3, e4⟩

/-- Witness for `createWindow_command_processed`: from the start of the loop
`createWindow(0, 0, 640, 480, 3, "a")` returns handle `1`; with an SDL that reports the
native handle `3`, processing the command posts `Window{1, 3}` and then
`Size{1, 640, 480}`. -/
theorem createWindow_command_processed_witness :
    Sdl2.world0.s_ctx.m_windowAlloc.WellFormed Sdl2.config.ENTRY_CONFIG_MAX_WINDOWS ∧
    Sdl2.config.ENTRY_CONFIG_MAX_WINDOWS ≤ UINT16_MAX ∧
    Sdl2.world0.s_ctx.m_windowAlloc.m_numHandles < Sdl2.config.ENTRY_CONFIG_MAX_WINDOWS ∧
    Sdl2.world0.s_ctx.m_window.length = Sdl2.config.ENTRY_CONFIG_MAX_WINDOWS ∧
    Sdl2.world0.s_ctx.m_flags.length = Sdl2.config.ENTRY_CONFIG_MAX_WINDOWS ∧
    (createWindow Sdl2.config Sdl2.world0 0 0 640 480 3 "a").1 = ⟨1⟩ ∧
    (Context.runUserEvent Sdl2.config Sdl2.sdlOk Sdl2.world0.s_ctx
        (SDL_UserEvent.SDL_USER_WINDOW_CREATE 1 ⟨0, 0, 640, 480, 3, "a"⟩)).m_eventQueue =
      Sdl2.world0.s_ctx.m_eventQueue ++ [Event.Window ⟨1⟩ 3, Event.Size ⟨1⟩ 640 480] :=
  ⟨by decide, by decide, by decide, by decide, by decide, by decide,
    (createWindow_command_processed Sdl2.config Sdl2.sdlOk Sdl2.world0 0 0 640 480 3 "a"
      Sdl2.world0.s_ctx (by decide) (by decide) (by decide) (by decide) (by decide)).2.2.1 3 rfl⟩

/-- C8 as stated fails when `SDL_GetWindowWMInfo` returns `SDL_FALSE` for the new window:
the create command of a successful `createWindow` is processed, the flags are stored in
slot `1`, and no `Window` event is posted: the queue still holds only the `Size`
event of the default window. -/
theorem createWindow_command_processed_counterexample :
    (createWindow Sdl2.config Sdl2.world0 0 0 640 480 3 "a").1 = ⟨1⟩ ∧
    (createWindow Sdl2.config Sdl2.world0 0 0 640 480 3 "a").2.pushed =
      [SDL_UserEvent.SDL_USER_WINDOW_CREATE 1 ⟨0, 0, 640, 480, 3, "a"⟩] ∧
    (World.pollEvent Sdl2.config Sdl2.sdlNoWMInfo
      (createWindow Sdl2.config Sdl2.world0 0 0 640 480 3 "a").2).pushed = [] ∧
    (World.pollEvent Sdl2.config Sdl2.sdlNoWMInfo
      (createWindow Sdl2.config Sdl2.world0 0 0 640 480 3 "a").2).s_ctx.m_flags.getD 1 0 = 3 ∧
    (World.pollEvent Sdl2.config Sdl2.sdlNoWMInfo
      (createWindow Sdl2.config Sdl2.world0 0 0 640 480 3 "a").2).s_ctx.m_eventQueue =
      [Event.Size ⟨0⟩ 1280 720] := by
  decide

end entry
